import Mathlib

/-
  Verification development for a minimal inode-based file system (src/fs.c).

  Shallow embedding notes:
  * C `int` values are modelled as `Int`.  All quantities handled by the code
    (block counts, sizes, offsets) stay far below 2^31 in the scenarios
    considered, so wrap-around is irrelevant and is not modelled.
  * C truncated division/remainder (`/`, `%` on int, C99 semantics) are
    `Int.tdiv` / `Int.tmod`.  `floor()` applied to an already-truncated int
    division is the identity and is dropped.
  * `ceil((double)x / 4096.0)` is exact for |x| < 2^52 because 4096 is a power
    of two, and `ceil(n / 10.0)` is exact for all int block counts (the real
    value is never within 2^-20 of a wrong integer), so both are modelled by
    the integer identity ceil(a/b) = (a + b - 1) ediv b (floor division).
  * Byte buffers are total functions `Int → Nat`; `memcpy` is a range
    override.  This gives a defined meaning to the out-of-range copies the C
    code can perform (which are undefined behaviour in C); theorems that rely
    on such inputs only ever observe the arithmetic the code itself computes.
  * A disk block is a record carrying the three views of C's `union fs_block`
    (superblock fields, inode array, pointer array) plus the raw data view.
    The program only ever reads a block through the view it was last written
    with, except for `fs_format`'s zeroing of inode-table blocks, where the
    all-zero byte pattern decodes to zero in every view; `zeroRawBlock` is
    therefore zero in all views, and a write through one view leaves the
    other (never subsequently read) views untouched.
  * Loops are structural recursions over the exact index ranges the C code
    iterates; a C `break` is a non-recursive return, a `continue` is a tail
    call.  The `while (size - offset > 0)` loop of `fs_write` recurses on a
    fuel of (size - offset).toNat: every iteration that does not return
    decreases size - offset by 4096 - block_offset ≥ 1 (|tmod| < 4096), so
    the fuel-exhaustion branch is unreachable and coincides with the loop
    exit condition anyway.
  * DISK_BLOCK_SIZE comes from disk.h, which is not under src/.  Modelled
    from the spec: 128 inode records (of four ints and five pointers, i.e.
    32 bytes) per block and 1024 block-pointer integers per block both give
    a 4096-byte block.
-/

namespace FsSim

set_option maxRecDepth 100000

def DISK_BLOCK_SIZE : Int := 4096
def FS_MAGIC : Int := 0xf0f03410
def INODES_PER_BLOCK : Int := 128
def POINTERS_PER_INODE : Int := 5
def POINTERS_PER_BLOCK : Int := 1024

/-- struct fs_inode -/
structure Inode where
  isvalid : Int
  size : Int
  direct : Int → Int
  indirect : Int

def zeroInode : Inode := ⟨0, 0, fun _ => 0, 0⟩

/-- union fs_block: all views of one disk block (see header comment). -/
structure RawBlock where
  magic : Int
  nblocks : Int
  ninodeblocks : Int
  ninodes : Int
  inode : Int → Inode
  pointers : Int → Int
  data : Int → Nat

def zeroRawBlock : RawBlock :=
  { magic := 0, nblocks := 0, ninodeblocks := 0, ninodes := 0,
    inode := fun _ => zeroInode, pointers := fun _ => 0, data := fun _ => 0 }

structure Disk where
  nblocks : Int
  blocks : Int → RawBlock

/-- Point update of a total function (array store). -/
def upd {α : Type} (f : Int → α) (i : Int) (v : α) : Int → α :=
  fun j => if j = i then v else f j

def writeBlock (d : Disk) (b : Int) (v : RawBlock) : Disk :=
  { d with blocks := upd d.blocks b v }

/-- memcpy(dst + dstOff, src + srcOff, n) on byte buffers. -/
def memcpy (dst : Int → Nat) (dstOff : Int) (src : Int → Nat) (srcOff : Int)
    (n : Int) : Int → Nat :=
  fun i => if dstOff ≤ i ∧ i < dstOff + n then src (srcOff + (i - dstOff)) else dst i

/-- Whole program state: the disk plus the two globals of fs.c. -/
structure FS where
  disk : Disk
  is_mounted : Bool
  free_block_bm : Int → Bool

/-- The list lo, lo+1, ..., hi-1 (the index range of a C for loop). -/
def intRange (lo hi : Int) : List Int :=
  (List.range (hi - lo).toNat).map (fun k => lo + Int.ofNat k)

/-- ceil((double)s / DISK_BLOCK_SIZE); exact, see header comment. -/
def ceilDivBS (s : Int) : Int := (s + (DISK_BLOCK_SIZE - 1)).ediv DISK_BLOCK_SIZE

-- Low Level Functions (Helpers)

def inode_load (d : Disk) (inumber : Int) : Inode :=
  let block_number := 1 + inumber.tdiv INODES_PER_BLOCK
  let block_inode := inumber.tmod INODES_PER_BLOCK
  (d.blocks block_number).inode block_inode

def inode_save (d : Disk) (inumber : Int) (ino : Inode) : Disk :=
  let block_number := 1 + inumber.tdiv INODES_PER_BLOCK
  let block_inode := inumber.tmod INODES_PER_BLOCK
  let blk := d.blocks block_number
  writeBlock d block_number { blk with inode := upd blk.inode block_inode ino }

def is_valid_inumber (d : Disk) (inumber : Int) : Bool :=
  let sb := d.blocks 0
  if 0 < inumber ∧ inumber < sb.ninodes then
    if (inode_load d inumber).isvalid ≠ 0 then true else false
  else false

/-- The direct/indirect pointer walk that fs.c repeats in fs_mount, fs_delete
and fs_read: scan the pointer slots in the given index list, breaking as soon
as the running size is no longer positive; for each non-zero pointer store
`val` into the boolean array at the pointed-to block and decrement the
running size by one block. -/
def ptrWalk (ptrs : Int → Int) (val : Bool) :
    List Int → (Int → Bool) × Int → (Int → Bool) × Int
  | [], st => st
  | p :: rest, st =>
    if st.2 ≤ 0 then st
    else if ptrs p ≠ 0 then
      ptrWalk ptrs val rest (upd st.1 (ptrs p) val, st.2 - DISK_BLOCK_SIZE)
    else ptrWalk ptrs val rest st

-- High Level Functions

def formatZeroLoop (d : Disk) : List Int → Disk
  | [] => d
  | i :: rest => formatZeroLoop (writeBlock d (i + 1) zeroRawBlock) rest

def fs_format (fs : FS) : Int × FS :=
  if fs.is_mounted then (0, fs) else
  let sb := fs.disk.blocks 0
  let d1 := if sb.magic = FS_MAGIC
            then formatZeroLoop fs.disk (intRange 0 sb.ninodeblocks)
            else fs.disk
  let nib := (fs.disk.nblocks + 9).ediv 10
  let newSuper : RawBlock :=
    { magic := FS_MAGIC, nblocks := fs.disk.nblocks, ninodeblocks := nib,
      ninodes := nib * INODES_PER_BLOCK,
      inode := fun _ => zeroInode, pointers := fun _ => 0, data := fun _ => 0 }
  (1, { fs with disk := writeBlock d1 0 newSuper })

/-- The per-inode body of fs_mount's scan: for a valid inode mark its direct
blocks, then (if size remains) its indirect block and the blocks its
pointer array references, as busy. -/
def mountScanInode (d : Disk) (ino : Inode) (bm : Int → Bool) : Int → Bool :=
  if ino.isvalid ≠ 0 then
    let st1 := ptrWalk ino.direct false (intRange 0 POINTERS_PER_INODE) (bm, ino.size)
    if st1.2 > 0 ∧ ino.indirect ≠ 0 then
      (ptrWalk (d.blocks ino.indirect).pointers false (intRange 0 POINTERS_PER_BLOCK)
        (upd st1.1 ino.indirect false, st1.2)).1
    else st1.1
  else bm

def fs_mount (fs : FS) : Int × FS :=
  let sb := fs.disk.blocks 0
  if sb.magic ≠ FS_MAGIC then (0, fs) else
  let bm0 : Int → Bool := upd (fun _ => true) 0 false
  let bm := (intRange 0 sb.ninodeblocks).foldl
    (fun bm ib =>
      let bm := upd bm (ib + 1) false
      (intRange 0 INODES_PER_BLOCK).foldl
        (fun bm slot => mountScanInode fs.disk ((fs.disk.blocks (ib + 1)).inode slot) bm)
        bm)
    bm0
  (1, { fs with is_mounted := true, free_block_bm := bm })

/-- The scan of fs_create over inumbers lo, lo+1, ... (fuel = number of
remaining candidates).  Note: the new inode's direct pointers are cleared
slot by slot, exactly as in the source; the indirect field is not touched. -/
def createScan (d : Disk) (lo : Int) : Nat → Int × Disk
  | 0 => (0, d)
  | n + 1 =>
    let ino := inode_load d lo
    if ino.isvalid ≠ 0 then createScan d (lo + 1) n
    else
      let newIno : Inode :=
        { isvalid := 1, size := 0,
          direct := (intRange 0 POINTERS_PER_INODE).foldl
                      (fun dir ptr => upd dir ptr 0) ino.direct,
          indirect := ino.indirect }
      (lo, inode_save d lo newIno)

def fs_create (fs : FS) : Int × FS :=
  if !fs.is_mounted then (0, fs) else
  let sb := fs.disk.blocks 0
  let r := createScan fs.disk 1 (sb.ninodes - 1).toNat
  (r.1, { fs with disk := r.2 })

def fs_delete (fs : FS) (inumber : Int) : Int × FS :=
  if !fs.is_mounted || !(is_valid_inumber fs.disk inumber) then (0, fs) else
  let ino := inode_load fs.disk inumber
  let st1 := ptrWalk ino.direct true (intRange 0 POINTERS_PER_INODE)
               (fs.free_block_bm, ino.size)
  let st2 :=
    if st1.2 > 0 ∧ ino.indirect ≠ 0 then
      ptrWalk (fs.disk.blocks ino.indirect).pointers true (intRange 0 POINTERS_PER_BLOCK)
        (upd st1.1 ino.indirect true, st1.2)
    else st1
  let d2 := inode_save fs.disk inumber { ino with isvalid := 0, size := st2.2 }
  (1, { fs with disk := d2, free_block_bm := st2.1 })

def fs_getsize (fs : FS) (inumber : Int) : Int :=
  if !fs.is_mounted || !(is_valid_inumber fs.disk inumber) then -1
  else (inode_load fs.disk inumber).size

/-- Mutable locals of fs_read's block loop. -/
structure ReadSt where
  length : Int
  size : Int
  offset_ptr : Int
  n_block : Int
  read_counter : Int
  out : Int → Nat

/-- The loop `for (b = 0; b < nblocks; b++)` of fs_read.  The two branches
that `break` return without recursing (skipping the trailing size/n_block
updates, as the C break does). -/
def readLoop (d : Disk) (marks : Int → Bool) (offset : Int) :
    List Int → ReadSt → ReadSt
  | [], st => st
  | b :: rest, st =>
    if st.length ≤ 0 ∨ st.size ≤ 0 then st
    else if marks b then
      if st.offset_ptr = st.n_block then
        let block_offset := (offset - st.offset_ptr * DISK_BLOCK_SIZE).tmod DISK_BLOCK_SIZE
        let blk := (d.blocks b).data
        if st.size < DISK_BLOCK_SIZE then
          { st with out := memcpy st.out st.read_counter blk block_offset st.size,
                    read_counter := st.read_counter + st.size }
        else if block_offset + st.length < DISK_BLOCK_SIZE then
          { st with out := memcpy st.out st.read_counter blk block_offset st.length,
                    read_counter := st.read_counter + st.length }
        else
          readLoop d marks offset rest
            { st with
              out := memcpy st.out st.read_counter blk block_offset
                       (DISK_BLOCK_SIZE - block_offset),
              read_counter := st.read_counter + (DISK_BLOCK_SIZE - block_offset),
              length := st.length - (DISK_BLOCK_SIZE - block_offset),
              offset_ptr := st.offset_ptr + 1,
              size := st.size - DISK_BLOCK_SIZE,
              n_block := st.n_block + 1 }
      else
        readLoop d marks offset rest
          { st with size := st.size - DISK_BLOCK_SIZE, n_block := st.n_block + 1 }
    else readLoop d marks offset rest st

/-- fs_read.  `data0` is the caller's output buffer (returned untouched on a
precondition failure, as in C). -/
def fs_read (fs : FS) (inumber : Int) (data0 : Int → Nat) (length offset : Int) :
    Int × (Int → Nat) :=
  if !fs.is_mounted || !(is_valid_inumber fs.disk inumber) then (0, data0) else
  if length ≤ 0 ∨ offset < 0 then (0, data0) else
  let ino := inode_load fs.disk inumber
  if offset ≥ ino.size then (0, data0) else
  let sb := fs.disk.blocks 0
  let m1 := ptrWalk ino.direct true (intRange 0 POINTERS_PER_INODE)
              ((fun _ => false), ino.size)
  let marks :=
    if m1.2 > 0 ∧ ino.indirect ≠ 0 then
      (ptrWalk (fs.disk.blocks ino.indirect).pointers true (intRange 0 POINTERS_PER_BLOCK) m1).1
    else m1.1
  let st := readLoop fs.disk marks offset (intRange 0 sb.nblocks)
    { length := length, size := ino.size,
      offset_ptr := offset.tdiv DISK_BLOCK_SIZE,
      n_block := 0, read_counter := 0, out := data0 }
  (st.read_counter, st.out)

/-- Mutable locals of fs_write's overwrite loop.  `buf` is the union buffer
`block` of fs_write, which the C code never initializes from disk. -/
structure OwSt where
  disk : Disk
  offset_ptr : Int
  write_counter : Int
  size : Int
  length : Int
  buf : Int → Nat

/-- The `while (size - offset > 0)` loop of fs_write.  The Bool result is
true when the loop ran the in-loop `return write_counter` (length exhausted),
false when the loop condition failed.  See the header comment on the fuel. -/
def owLoop (ino : Inode) (ibuf : Int → Int) (data : Int → Nat) (offset : Int) :
    Nat → OwSt → OwSt × Bool
  | 0, st => (st, false)
  | fuel + 1, st =>
    if st.size - offset ≤ 0 then (st, false)
    else
      let block_num := if st.offset_ptr < POINTERS_PER_INODE
                       then ino.direct st.offset_ptr
                       else ibuf (st.offset_ptr - POINTERS_PER_INODE)
      let block_offset := (offset - st.offset_ptr * DISK_BLOCK_SIZE).tmod DISK_BLOCK_SIZE
      let st1 :=
        if block_offset + st.length < DISK_BLOCK_SIZE then
          { st with buf := memcpy st.buf block_offset data st.write_counter st.length,
                    write_counter := st.write_counter + st.length,
                    size := st.size - st.length,
                    length := 0 }
        else
          { st with buf := memcpy st.buf block_offset data st.write_counter
                             (DISK_BLOCK_SIZE - block_offset),
                    write_counter := st.write_counter + (DISK_BLOCK_SIZE - block_offset),
                    size := st.size - (DISK_BLOCK_SIZE - block_offset),
                    length := st.length - (DISK_BLOCK_SIZE - block_offset) }
      let st2 := { st1 with
        disk := writeBlock st1.disk block_num
                  { (st1.disk.blocks block_num) with data := st1.buf },
        offset_ptr := st1.offset_ptr + 1 }
      if st2.length ≤ 0 then (st2, true)
      else owLoop ino ibuf data offset fuel st2

/-- Mutable locals of fs_write's extension loop. -/
structure ExtSt where
  disk : Disk
  bm : Int → Bool
  ino : Inode
  has_indirect : Bool
  free_direct : Int
  free_indirect : Int
  offset_ptr : Int
  write_counter : Int
  length : Int
  buf : Int → Nat

/-- The loop `for (b = ninodeblocks; b < nblocks; b++)` of fs_write. -/
def extLoop (inumber : Int) (data : Int → Nat) (offset : Int) :
    List Int → ExtSt → ExtSt
  | [], st => st
  | b :: rest, st =>
    if st.length ≤ 0 then st
    else if !(st.bm b) then extLoop inumber data offset rest st
    else
      let st : ExtSt := { st with bm := upd st.bm b false }
      if st.free_direct = 0 ∧ st.has_indirect = false then
        let ino1 : Inode := { st.ino with indirect := b }
        extLoop inumber data offset rest
          { st with ino := ino1, disk := inode_save st.disk inumber ino1,
                    has_indirect := true }
      else
        let block_offset := (offset - st.offset_ptr * DISK_BLOCK_SIZE).tmod DISK_BLOCK_SIZE
        let st1 : ExtSt :=
          if block_offset + st.length < DISK_BLOCK_SIZE then
            { st with buf := memcpy st.buf block_offset data st.write_counter st.length,
                      write_counter := st.write_counter + st.length,
                      ino := { st.ino with size := st.ino.size + st.length },
                      length := 0 }
          else
            { st with buf := memcpy st.buf block_offset data st.write_counter
                               (DISK_BLOCK_SIZE - block_offset),
                      write_counter := st.write_counter + (DISK_BLOCK_SIZE - block_offset),
                      ino := { st.ino with size := st.ino.size + (DISK_BLOCK_SIZE - block_offset) },
                      length := st.length - (DISK_BLOCK_SIZE - block_offset) }
        let st2 : ExtSt :=
          if st1.free_direct > 0 then
            { st1 with
              ino := { st1.ino with
                direct := upd st1.ino.direct
                  ((POINTERS_PER_INODE - st1.free_direct).tmod POINTERS_PER_INODE) b },
              free_direct := st1.free_direct - 1 }
          else if st1.has_indirect = true ∧ st1.free_indirect > 0 then
            let islot := (POINTERS_PER_BLOCK - st1.free_indirect).tmod POINTERS_PER_BLOCK
            let iblk := st1.disk.blocks st1.ino.indirect
            { st1 with
              disk := writeBlock st1.disk st1.ino.indirect
                        { iblk with pointers := upd iblk.pointers islot b },
              free_indirect := st1.free_indirect - 1 }
          else st1
        let d2 := inode_save st2.disk inumber st2.ino
        let d3 := writeBlock d2 b { (d2.blocks b) with data := st2.buf }
        extLoop inumber data offset rest
          { st2 with disk := d3, offset_ptr := st2.offset_ptr + 1 }

/-- fs_write.  `scratch` and `iscratch` are the contents of the two
uninitialized union buffers `block` and `indirect_block` that fs_write
declares on the stack (the code writes `block` to disk without ever reading
it, and reads `indirect_block` without loading it unless pointers_used > 5,
so their initial contents are observable). -/
def fs_write (fs : FS) (inumber : Int) (data : Int → Nat) (length offset : Int)
    (scratch : Int → Nat) (iscratch : Int → Int) : Int × FS :=
  if !fs.is_mounted || !(is_valid_inumber fs.disk inumber) then (0, fs) else
  if length ≤ 0 ∨ offset < 0 then (0, fs) else
  let ino := inode_load fs.disk inumber
  let size := ino.size
  let pointers_used := ceilDivBS size
  let has_indirect0 := pointers_used > POINTERS_PER_INODE
  let ibuf := if has_indirect0 then (fs.disk.blocks ino.indirect).pointers else iscratch
  let ow := owLoop ino ibuf data offset (size - offset).toNat
    { disk := fs.disk, offset_ptr := offset.tdiv DISK_BLOCK_SIZE,
      write_counter := 0, size := size, length := length, buf := scratch }
  if ow.2 then (ow.1.write_counter, { fs with disk := ow.1.disk }) else
  let free_direct := if pointers_used ≤ POINTERS_PER_INODE
                     then POINTERS_PER_INODE - pointers_used else 0
  let has_indirect := if pointers_used > POINTERS_PER_INODE then true else has_indirect0
  let free_indirect := if pointers_used > POINTERS_PER_INODE
                       then POINTERS_PER_BLOCK - (pointers_used - POINTERS_PER_INODE)
                       else POINTERS_PER_BLOCK
  let sb := ow.1.disk.blocks 0
  let est := extLoop inumber data offset (intRange sb.ninodeblocks sb.nblocks)
    { disk := ow.1.disk, bm := fs.free_block_bm, ino := ino,
      has_indirect := has_indirect, free_direct := free_direct,
      free_indirect := free_indirect, offset_ptr := ow.1.offset_ptr,
      write_counter := ow.1.write_counter, length := ow.1.length, buf := ow.1.buf }
  (est.write_counter, { fs with disk := est.disk, free_block_bm := est.bm })

-- Concrete volume used by the witnesses and counterexamples: the 10-block
-- device of the spec's own concrete scenario, formatted (1 inode-table
-- block, 128 inodes), mounted, with one file created (inumber 1, size 0).

def disk0 : Disk := { nblocks := 10, blocks := fun _ => zeroRawBlock }
def fs0 : FS := { disk := disk0, is_mounted := false, free_block_bm := fun _ => false }
def fsA : FS := (fs_format fs0).2
def fsB : FS := (fs_mount fsA).2
def fsC : FS := (fs_create fsB).2

def dataA : Int → Nat := fun _ => 65
def dataB : Int → Nat := fun _ => 66
def dataC : Int → Nat := fun _ => 67
def zeros : Int → Nat := fun _ => 0
def izeros : Int → Int := fun _ => 0

/-- fsC after writing 10 bytes of 65 at offset 0 (file size 10, data block 2). -/
def fsD : FS := (fs_write fsC 1 dataA 10 0 zeros izeros).2

/-- fsC after writing 8192 bytes of 65 at offset 0 (file size 8192, blocks 2 and 3). -/
def fsE : FS := (fs_write fsC 1 dataA 8192 0 zeros izeros).2

/-- fsD after overwriting 2 bytes of 66 at offset 4. -/
def fsD2 : FS := (fs_write fsD 1 dataB 2 4 zeros izeros).2

/-- fsD after overwriting 1 byte of 66 at offset 0. -/
def fsD3 : FS := (fs_write fsD 1 dataB 1 0 zeros izeros).2

/-- fsE after the unaligned two-block overwrite write(1, 5000 bytes, offset 100). -/
def fsE2 : FS := (fs_write fsE 1 dataB 5000 100 zeros izeros).2

/-- fsC after writing 24576 bytes (six blocks: direct 2..6, indirect 7, data 8). -/
def fsF : FS := (fs_write fsC 1 dataA 24576 0 zeros izeros).2

/-- fsF after deleting inumber 1 (frees its blocks, invalidates the slot). -/
def fsG : FS := (fs_delete fsF 1).2

/-- fsG after re-creating an inode (reuses inumber 1). -/
def fsH : FS := (fs_create fsG).2

/-- fsD after deleting inumber 1. -/
def fsI : FS := (fs_delete fsD 1).2

-- States for the pointer-order scenario: file 1 gets block 2, file 2 gets
-- block 3; deleting file 1 frees block 2, and extending file 2 then places
-- its second logical block in block 2 < 3, so file 2's direct pointers are
-- [3, 2], not in ascending numeric order.

def w1 : FS := (fs_write fsC 1 dataA 4096 0 zeros izeros).2
def fsC2 : FS := (fs_create w1).2
def w2 : FS := (fs_write fsC2 2 dataB 4096 0 zeros izeros).2
def del1 : FS := (fs_delete w2 1).2
def w3 : FS := (fs_write del1 2 dataC 4096 4096 zeros izeros).2

-- General lemmas

/-- Reading back an inode just saved returns exactly the saved record. -/
theorem inode_load_save (d : Disk) (i : Int) (x : Inode) :
    inode_load (inode_save d i x) i = x := by
  simp [inode_load, inode_save, writeBlock, upd]

theorem mem_intRange {a lo hi : Int} : a ∈ intRange lo hi ↔ lo ≤ a ∧ a < hi := by
  unfold intRange
  rw [List.mem_map]
  constructor
  · rintro ⟨k, hk, rfl⟩
    rw [List.mem_range] at hk
    simp only [Int.ofNat_eq_natCast]
    omega
  · rintro ⟨h1, h2⟩
    refine ⟨(a - lo).toNat, ?_, ?_⟩
    · rw [List.mem_range]
      omega
    · simp only [Int.ofNat_eq_natCast]
      omega

-- Machinery for unfolding the write/read loops symbolically in the length.
-- The "next state" definitions below package one loop iteration (for the
-- block-aligned positions that arise when writing at offset 0); the step
-- lemmas prove them equal to one unfolding of the corresponding loop, and
-- the projection lemmas let later iterations read the fields without
-- expanding the whole state.

theorem upd_eval {α : Type} (f : Int → α) (i : Int) (v : α) (j : Int) :
    upd f i v j = if j = i then v else f j := rfl

theorem writeBlock_blocks (d : Disk) (b : Int) (v : RawBlock) (c : Int) :
    (writeBlock d b v).blocks c = if c = b then v else d.blocks c := rfl

theorem writeBlock_nblocks (d : Disk) (b : Int) (v : RawBlock) :
    (writeBlock d b v).nblocks = d.nblocks := rfl

theorem inode_save_blocks (d : Disk) (i : Int) (x : Inode) (c : Int) :
    (inode_save d i x).blocks c =
      if c = 1 + i.tdiv INODES_PER_BLOCK then
        { (d.blocks (1 + i.tdiv INODES_PER_BLOCK)) with
          inode := upd (d.blocks (1 + i.tdiv INODES_PER_BLOCK)).inode
                     (i.tmod INODES_PER_BLOCK) x }
      else d.blocks c := by
  unfold inode_save writeBlock upd
  by_cases h : c = 1 + i.tdiv INODES_PER_BLOCK <;> simp [h]

theorem inode_save_nblocks (d : Disk) (i : Int) (x : Inode) :
    (inode_save d i x).nblocks = d.nblocks := rfl

theorem inode_load_blocks (d : Disk) (i : Int) :
    inode_load d i = (d.blocks (1 + i.tdiv INODES_PER_BLOCK)).inode
      (i.tmod INODES_PER_BLOCK) := rfl

/-- One data-writing iteration of the extension loop through a direct slot,
writing n bytes at the start of the freshly claimed block b. -/
def extNextDirect (inumber : Int) (data : Int → Nat) (b n : Int) (st : ExtSt) : ExtSt :=
  { st with
    bm := upd st.bm b false,
    buf := memcpy st.buf 0 data st.write_counter n,
    write_counter := st.write_counter + n,
    length := st.length - n,
    ino := { st.ino with
             size := st.ino.size + n,
             direct := upd st.ino.direct
               ((POINTERS_PER_INODE - st.free_direct).tmod POINTERS_PER_INODE) b },
    free_direct := st.free_direct - 1,
    disk := writeBlock
      (inode_save st.disk inumber
        { st.ino with
          size := st.ino.size + n,
          direct := upd st.ino.direct
            ((POINTERS_PER_INODE - st.free_direct).tmod POINTERS_PER_INODE) b })
      b
      { ((inode_save st.disk inumber
           { st.ino with
             size := st.ino.size + n,
             direct := upd st.ino.direct
               ((POINTERS_PER_INODE - st.free_direct).tmod POINTERS_PER_INODE) b }).blocks b)
        with data := memcpy st.buf 0 data st.write_counter n },
    offset_ptr := st.offset_ptr + 1 }

/-- One iteration of the extension loop claiming block b as the indirect
block (no data written). -/
def extNextClaim (inumber b : Int) (st : ExtSt) : ExtSt :=
  { st with bm := upd st.bm b false,
            ino := { st.ino with indirect := b },
            disk := inode_save st.disk inumber { st.ino with indirect := b },
            has_indirect := true }

/-- One data-writing iteration of the extension loop through an indirect
slot, writing n bytes at the start of the freshly claimed block b. -/
def extNextIndirect (inumber : Int) (data : Int → Nat) (b n : Int) (st : ExtSt) : ExtSt :=
  { st with
    bm := upd st.bm b false,
    buf := memcpy st.buf 0 data st.write_counter n,
    write_counter := st.write_counter + n,
    length := st.length - n,
    ino := { st.ino with size := st.ino.size + n },
    free_indirect := st.free_indirect - 1,
    disk := writeBlock
      (inode_save
        (writeBlock st.disk st.ino.indirect
          { (st.disk.blocks st.ino.indirect) with
            pointers := upd (st.disk.blocks st.ino.indirect).pointers
              ((POINTERS_PER_BLOCK - st.free_indirect).tmod POINTERS_PER_BLOCK) b })
        inumber { st.ino with size := st.ino.size + n })
      b
      { ((inode_save
           (writeBlock st.disk st.ino.indirect
             { (st.disk.blocks st.ino.indirect) with
               pointers := upd (st.disk.blocks st.ino.indirect).pointers
                 ((POINTERS_PER_BLOCK - st.free_indirect).tmod POINTERS_PER_BLOCK) b })
           inumber { st.ino with size := st.ino.size + n }).blocks b)
        with data := memcpy st.buf 0 data st.write_counter n },
    offset_ptr := st.offset_ptr + 1 }

section ExtProj
variable (inumber : Int) (data : Int → Nat) (b n : Int) (st : ExtSt)

@[simp] theorem extNextDirect_length : (extNextDirect inumber data b n st).length = st.length - n := rfl
@[simp] theorem extNextDirect_bm : (extNextDirect inumber data b n st).bm = upd st.bm b false := rfl
@[simp] theorem extNextDirect_free_direct : (extNextDirect inumber data b n st).free_direct = st.free_direct - 1 := rfl
@[simp] theorem extNextDirect_free_indirect : (extNextDirect inumber data b n st).free_indirect = st.free_indirect := rfl
@[simp] theorem extNextDirect_has_indirect : (extNextDirect inumber data b n st).has_indirect = st.has_indirect := rfl
@[simp] theorem extNextDirect_offset_ptr : (extNextDirect inumber data b n st).offset_ptr = st.offset_ptr + 1 := rfl
@[simp] theorem extNextDirect_write_counter : (extNextDirect inumber data b n st).write_counter = st.write_counter + n := rfl
@[simp] theorem extNextDirect_buf : (extNextDirect inumber data b n st).buf = memcpy st.buf 0 data st.write_counter n := rfl
@[simp] theorem extNextDirect_ino_size : (extNextDirect inumber data b n st).ino.size = st.ino.size + n := rfl
@[simp] theorem extNextDirect_ino_isvalid : (extNextDirect inumber data b n st).ino.isvalid = st.ino.isvalid := rfl
@[simp] theorem extNextDirect_ino_indirect : (extNextDirect inumber data b n st).ino.indirect = st.ino.indirect := rfl
@[simp] theorem extNextDirect_ino_direct : (extNextDirect inumber data b n st).ino.direct =
    upd st.ino.direct ((POINTERS_PER_INODE - st.free_direct).tmod POINTERS_PER_INODE) b := rfl
@[simp] theorem extNextDirect_disk_nblocks : (extNextDirect inumber data b n st).disk.nblocks = st.disk.nblocks := rfl
theorem extNextDirect_disk_blocks (c : Int) :
    (extNextDirect inumber data b n st).disk.blocks c =
      if c = b then
        { ((inode_save st.disk inumber (extNextDirect inumber data b n st).ino).blocks b)
          with data := memcpy st.buf 0 data st.write_counter n }
      else (inode_save st.disk inumber (extNextDirect inumber data b n st).ino).blocks c := rfl

@[simp] theorem extNextClaim_length : (extNextClaim inumber b st).length = st.length := rfl
@[simp] theorem extNextClaim_bm : (extNextClaim inumber b st).bm = upd st.bm b false := rfl
@[simp] theorem extNextClaim_free_direct : (extNextClaim inumber b st).free_direct = st.free_direct := rfl
@[simp] theorem extNextClaim_free_indirect : (extNextClaim inumber b st).free_indirect = st.free_indirect := rfl
@[simp] theorem extNextClaim_has_indirect : (extNextClaim inumber b st).has_indirect = true := rfl
@[simp] theorem extNextClaim_offset_ptr : (extNextClaim inumber b st).offset_ptr = st.offset_ptr := rfl
@[simp] theorem extNextClaim_write_counter : (extNextClaim inumber b st).write_counter = st.write_counter := rfl
@[simp] theorem extNextClaim_buf : (extNextClaim inumber b st).buf = st.buf := rfl
@[simp] theorem extNextClaim_ino_size : (extNextClaim inumber b st).ino.size = st.ino.size := rfl
@[simp] theorem extNextClaim_ino_isvalid : (extNextClaim inumber b st).ino.isvalid = st.ino.isvalid := rfl
@[simp] theorem extNextClaim_ino_indirect : (extNextClaim inumber b st).ino.indirect = b := rfl
@[simp] theorem extNextClaim_ino_direct : (extNextClaim inumber b st).ino.direct = st.ino.direct := rfl
@[simp] theorem extNextClaim_disk_nblocks : (extNextClaim inumber b st).disk.nblocks = st.disk.nblocks := rfl
theorem extNextClaim_disk_blocks (c : Int) :
    (extNextClaim inumber b st).disk.blocks c =
      (inode_save st.disk inumber (extNextClaim inumber b st).ino).blocks c := rfl

@[simp] theorem extNextIndirect_length : (extNextIndirect inumber data b n st).length = st.length - n := rfl
@[simp] theorem extNextIndirect_bm : (extNextIndirect inumber data b n st).bm = upd st.bm b false := rfl
@[simp] theorem extNextIndirect_free_direct : (extNextIndirect inumber data b n st).free_direct = st.free_direct := rfl
@[simp] theorem extNextIndirect_free_indirect : (extNextIndirect inumber data b n st).free_indirect = st.free_indirect - 1 := rfl
@[simp] theorem extNextIndirect_has_indirect : (extNextIndirect inumber data b n st).has_indirect = st.has_indirect := rfl
@[simp] theorem extNextIndirect_offset_ptr : (extNextIndirect inumber data b n st).offset_ptr = st.offset_ptr + 1 := rfl
@[simp] theorem extNextIndirect_write_counter : (extNextIndirect inumber data b n st).write_counter = st.write_counter + n := rfl
@[simp] theorem extNextIndirect_buf : (extNextIndirect inumber data b n st).buf = memcpy st.buf 0 data st.write_counter n := rfl
@[simp] theorem extNextIndirect_ino_size : (extNextIndirect inumber data b n st).ino.size = st.ino.size + n := rfl
@[simp] theorem extNextIndirect_ino_isvalid : (extNextIndirect inumber data b n st).ino.isvalid = st.ino.isvalid := rfl
@[simp] theorem extNextIndirect_ino_indirect : (extNextIndirect inumber data b n st).ino.indirect = st.ino.indirect := rfl
@[simp] theorem extNextIndirect_ino_direct : (extNextIndirect inumber data b n st).ino.direct = st.ino.direct := rfl
@[simp] theorem extNextIndirect_disk_nblocks : (extNextIndirect inumber data b n st).disk.nblocks = st.disk.nblocks := rfl
theorem extNextIndirect_disk_blocks (c : Int) :
    (extNextIndirect inumber data b n st).disk.blocks c =
      if c = b then
        { ((inode_save
             (writeBlock st.disk st.ino.indirect
               { (st.disk.blocks st.ino.indirect) with
                 pointers := upd (st.disk.blocks st.ino.indirect).pointers
                   ((POINTERS_PER_BLOCK - st.free_indirect).tmod POINTERS_PER_BLOCK) b })
             inumber (extNextIndirect inumber data b n st).ino).blocks b)
          with data := memcpy st.buf 0 data st.write_counter n }
      else (inode_save
             (writeBlock st.disk st.ino.indirect
               { (st.disk.blocks st.ino.indirect) with
                 pointers := upd (st.disk.blocks st.ino.indirect).pointers
                   ((POINTERS_PER_BLOCK - st.free_indirect).tmod POINTERS_PER_BLOCK) b })
             inumber (extNextIndirect inumber data b n st).ino).blocks c := rfl

end ExtProj

-- Step lemmas for the extension loop.

theorem extStepStop (inumber : Int) (data : Int → Nat) (offset b : Int)
    (rest : List Int) (st : ExtSt) (h1 : st.length ≤ 0) :
    extLoop inumber data offset (b :: rest) st = st := by
  rw [extLoop, if_pos h1]

theorem extStepSkip (inumber : Int) (data : Int → Nat) (offset b : Int)
    (rest : List Int) (st : ExtSt) (h1 : ¬ st.length ≤ 0) (h2 : st.bm b = false) :
    extLoop inumber data offset (b :: rest) st =
      extLoop inumber data offset rest st := by
  rw [extLoop, if_neg h1]
  simp [h2]

theorem extStepClaim (inumber : Int) (data : Int → Nat) (offset b : Int)
    (rest : List Int) (st : ExtSt) (h1 : ¬ st.length ≤ 0) (h2 : st.bm b = true)
    (h3 : st.free_direct = 0) (h4 : st.has_indirect = false) :
    extLoop inumber data offset (b :: rest) st =
      extLoop inumber data offset rest (extNextClaim inumber b st) := by
  rw [extLoop, if_neg h1]
  simp [h2, h3, h4, extNextClaim]

theorem extStepDirect (inumber : Int) (data : Int → Nat) (offset b : Int)
    (rest : List Int) (st : ExtSt) (h1 : ¬ st.length ≤ 0) (h2 : st.bm b = true)
    (h3 : ¬ (st.free_direct = 0 ∧ st.has_indirect = false))
    (hbo : (offset - st.offset_ptr * DISK_BLOCK_SIZE).tmod DISK_BLOCK_SIZE = 0)
    (h5 : ¬ (st.length < DISK_BLOCK_SIZE)) (h6 : st.free_direct > 0) :
    extLoop inumber data offset (b :: rest) st =
      extLoop inumber data offset rest
        (extNextDirect inumber data b DISK_BLOCK_SIZE st) := by
  rw [extLoop, if_neg h1]
  simp only [h2, h3, h5, h6, hbo, Bool.not_true, Bool.false_eq_true, if_false,
             if_true, zero_add, sub_zero, sub_self, extNextDirect]

theorem extStepDirectLast (inumber : Int) (data : Int → Nat) (offset b : Int)
    (rest : List Int) (st : ExtSt) (h1 : ¬ st.length ≤ 0) (h2 : st.bm b = true)
    (h3 : ¬ (st.free_direct = 0 ∧ st.has_indirect = false))
    (hbo : (offset - st.offset_ptr * DISK_BLOCK_SIZE).tmod DISK_BLOCK_SIZE = 0)
    (h5 : st.length < DISK_BLOCK_SIZE) (h6 : st.free_direct > 0) :
    extLoop inumber data offset (b :: rest) st =
      extLoop inumber data offset rest
        (extNextDirect inumber data b st.length st) := by
  rw [extLoop, if_neg h1]
  simp only [h2, h3, h5, h6, hbo, Bool.not_true, Bool.false_eq_true, if_false,
             if_true, zero_add, sub_zero, sub_self, extNextDirect]

theorem extStepIndirect (inumber : Int) (data : Int → Nat) (offset b : Int)
    (rest : List Int) (st : ExtSt) (h1 : ¬ st.length ≤ 0) (h2 : st.bm b = true)
    (hbo : (offset - st.offset_ptr * DISK_BLOCK_SIZE).tmod DISK_BLOCK_SIZE = 0)
    (h5 : ¬ (st.length < DISK_BLOCK_SIZE)) (h6 : ¬ st.free_direct > 0)
    (h7 : st.has_indirect = true) (h8 : st.free_indirect > 0) :
    extLoop inumber data offset (b :: rest) st =
      extLoop inumber data offset rest
        (extNextIndirect inumber data b DISK_BLOCK_SIZE st) := by
  rw [extLoop, if_neg h1]
  simp only [h2, h5, h6, h7, h8, hbo, Bool.not_true, Bool.false_eq_true,
             Bool.true_eq_false, and_false, if_false, if_true, and_true, true_and,
             zero_add, sub_zero, sub_self, extNextIndirect]

theorem extStepIndirectLast (inumber : Int) (data : Int → Nat) (offset b : Int)
    (rest : List Int) (st : ExtSt) (h1 : ¬ st.length ≤ 0) (h2 : st.bm b = true)
    (hbo : (offset - st.offset_ptr * DISK_BLOCK_SIZE).tmod DISK_BLOCK_SIZE = 0)
    (h5 : st.length < DISK_BLOCK_SIZE) (h6 : ¬ st.free_direct > 0)
    (h7 : st.has_indirect = true) (h8 : st.free_indirect > 0) :
    extLoop inumber data offset (b :: rest) st =
      extLoop inumber data offset rest
        (extNextIndirect inumber data b st.length st) := by
  rw [extLoop, if_neg h1]
  simp only [h2, h5, h6, h7, h8, hbo, Bool.not_true, Bool.false_eq_true,
             Bool.true_eq_false, and_false, if_false, if_true, and_true, true_and,
             zero_add, sub_zero, sub_self, extNextIndirect]

theorem writeBlock_load (d : Disk) (b : Int) (v : RawBlock) (i : Int)
    (hb : ¬ (1 + i.tdiv INODES_PER_BLOCK = b)) :
    inode_load (writeBlock d b v) i = inode_load d i := by
  simp only [inode_load, writeBlock, upd]
  rw [if_neg hb]

theorem extNextDirect_load (inumber : Int) (data : Int → Nat) (b n : Int) (st : ExtSt)
    (hb : ¬ (1 + inumber.tdiv INODES_PER_BLOCK = b)) :
    inode_load (extNextDirect inumber data b n st).disk inumber =
      (extNextDirect inumber data b n st).ino := by
  show inode_load (writeBlock _ b _) inumber = _
  rw [writeBlock_load _ _ _ _ hb, inode_load_save]
  rfl

theorem extNextClaim_load (inumber b : Int) (st : ExtSt) :
    inode_load (extNextClaim inumber b st).disk inumber = (extNextClaim inumber b st).ino := by
  show inode_load (inode_save _ inumber _) inumber = _
  rw [inode_load_save]
  rfl

theorem extNextIndirect_load (inumber : Int) (data : Int → Nat) (b n : Int) (st : ExtSt)
    (hb : ¬ (1 + inumber.tdiv INODES_PER_BLOCK = b)) :
    inode_load (extNextIndirect inumber data b n st).disk inumber =
      (extNextIndirect inumber data b n st).ino := by
  show inode_load (writeBlock _ b _) inumber = _
  rw [writeBlock_load _ _ _ _ hb, inode_load_save]
  rfl

theorem extLoop_nil (inumber : Int) (data : Int → Nat) (offset : Int) (st : ExtSt) :
    extLoop inumber data offset [] st = st := rfl


/-- The initial extension-loop state of a write of L bytes at offset 0 to
the empty file of fsC. -/
def extSt0 (L : Int) (scratch : Int → Nat) : ExtSt :=
  { disk := fsC.disk, bm := fsC.free_block_bm, ino := inode_load fsC.disk 1,
    has_indirect := false, free_direct := POINTERS_PER_INODE,
    free_indirect := POINTERS_PER_BLOCK, offset_ptr := 0, write_counter := 0,
    length := L, buf := scratch }

/-- The loop state after j full direct-block iterations of that write
(block 2 + j is the next candidate). -/
def extSt (data : Int → Nat) (L : Int) (scratch : Int → Nat) : Nat → ExtSt
  | 0 => extSt0 L scratch
  | j + 1 => extNextDirect 1 data (2 + Int.ofNat j) DISK_BLOCK_SIZE (extSt data L scratch j)

theorem extSt_length (data : Int → Nat) (L : Int) (scratch : Int → Nat) :
    ∀ j : Nat, (extSt data L scratch j).length = L - 4096 * Int.ofNat j := by
  intro j
  induction j with
  | zero => simp [extSt, extSt0]
  | succ j ih =>
    rw [extSt, extNextDirect_length, ih]
    simp only [Int.ofNat_eq_natCast, DISK_BLOCK_SIZE]
    push_cast
    ring

/-- fs_write on the concrete volume fsC at offset 0 reduces to the
extension loop over data blocks 1..9 starting from the initial loop state
(the overwrite loop does not run because the file is empty). -/
theorem fsC_write_to_ext (data : Int → Nat) (L : Int) (scratch : Int → Nat)
    (iscratch : Int → Int) (hL : ¬ (L ≤ 0)) :
    fs_write fsC 1 data L 0 scratch iscratch =
      ((extLoop 1 data 0 [1, 2, 3, 4, 5, 6, 7, 8, 9] (extSt0 L scratch)).write_counter,
       { fsC with
         disk := (extLoop 1 data 0 [1, 2, 3, 4, 5, 6, 7, 8, 9] (extSt0 L scratch)).disk,
         free_block_bm :=
           (extLoop 1 data 0 [1, 2, 3, 4, 5, 6, 7, 8, 9] (extSt0 L scratch)).bm }) := by
  unfold extSt0
  have hg : (!fsC.is_mounted || !(is_valid_inumber fsC.disk 1)) = false := by decide
  have hsz : (inode_load fsC.disk 1).size = 0 := by decide
  have hnib : (fsC.disk.blocks 0).ninodeblocks = 1 := by decide
  have hnb : (fsC.disk.blocks 0).nblocks = 10 := by decide
  have hrange : intRange 1 10 = [1, 2, 3, 4, 5, 6, 7, 8, 9] := by decide
  have hpu : ceilDivBS 0 = 0 := by decide
  unfold fs_write
  rw [hg]
  simp only [Bool.false_eq_true, if_false]
  rw [if_neg (by omega : ¬ (L ≤ 0 ∨ (0 : Int) < 0))]
  simp only [hsz, sub_zero, Int.toNat_zero, owLoop, hpu, Int.zero_tdiv, hnib, hnb,
             hrange, Bool.false_eq_true, if_false]
  norm_num [POINTERS_PER_INODE, POINTERS_PER_BLOCK]

-- Claim C2

/-- C2 counterexample: write does NOT fail under the same preconditions as
read.  On the freshly created empty file (size 0), a read at offset 0 fails
with 0 because offset >= size, but a write of one byte at the same offset
succeeds and returns 1: fs_write has no offset-vs-size precondition. -/
theorem c2_not_same_preconditions_counterexample :
    (inode_load fsC.disk 1).size = 0 ∧
    (fs_read fsC 1 zeros 1 0).1 = 0 ∧
    (fs_write fsC 1 dataA 1 0 zeros izeros).1 = 1 := by decide

/-- C2 (amended): fs_write fails returning 0, with no side effects (the
state is returned unchanged), when the volume is not mounted, the inumber is
invalid, the length is non-positive, or the offset is negative — read's
preconditions except the offset >= size check, which write does not have. -/
theorem c2_write_precondition_no_effect (fs : FS) (inumber : Int)
    (data : Int → Nat) (length offset : Int) (scratch : Int → Nat)
    (iscratch : Int → Int)
    (h : fs.is_mounted = false ∨ is_valid_inumber fs.disk inumber = false ∨
         length ≤ 0 ∨ offset < 0) :
    fs_write fs inumber data length offset scratch iscratch = (0, fs) := by
  unfold fs_write
  rcases h with h | h | h | h
  · simp [h]
  · simp [h]
  · cases hb : (!fs.is_mounted || !(is_valid_inumber fs.disk inumber)) <;> simp [hb, h]
  · cases hb : (!fs.is_mounted || !(is_valid_inumber fs.disk inumber)) <;> simp [hb, h]

/-- Witness for c2_write_precondition_no_effect at a concrete input. -/
theorem c2_write_precondition_no_effect_witness :
    fs_write fs0 1 dataA 1 0 zeros izeros = (0, fs0) :=
  c2_write_precondition_no_effect fs0 1 dataA 1 0 zeros izeros (Or.inl (by decide))

-- Claim C3

/-- C3: fs_read can return MORE than the requested length, refuting the
claim that the returned count is at most length.  On the 10-byte file, a
read of length 2 at offset 0 returns 10: the size < DISK_BLOCK_SIZE branch
of the block loop copies the remaining file size without consulting length. -/
theorem c3_read_count_exceeds_length :
    (inode_load fsD.disk 1).size = 10 ∧
    (fs_read fsD 1 zeros 2 0).1 = 10 := by decide

-- Claim C5

/-- C5: the overwrite phase does not perform a read-modify-write; it writes
the whole uninitialized stack buffer.  Overwriting a single byte at offset 0
of the 10-byte file of 65s succeeds (returns 1) but turns byte 1 of the data
block — outside the written range [0, 1) — from 65 into the scratch
buffer's content 0. -/
theorem c5_overwrite_frame_violation :
    (fsD.disk.blocks 2).data 1 = 65 ∧
    (fs_write fsD 1 dataB 1 0 zeros izeros).1 = 1 ∧
    (fsD3.disk.blocks 2).data 1 = 0 := by decide

-- Claim C10

/-- C10: the intra-block offset computed by fs_write is negative on the
second iteration of the overwrite loop for an unaligned multi-block write.
Writing 5000 bytes at offset 100 into the 8192-byte file: the second
iteration computes (100 - 1 * 4096) tmod 4096 = -3996, and the 1004-byte
copy lands entirely before the start of the block buffer — the block's
in-range bytes receive the scratch contents (byte 0: 65 before, 0 after)
while the copied data appears at negative indices. -/
theorem c10_negative_block_offset :
    ((100 : Int) - 1 * DISK_BLOCK_SIZE).tmod DISK_BLOCK_SIZE = -3996 ∧
    (fs_write fsE 1 dataB 5000 100 zeros izeros).1 = 5000 ∧
    (fsE.disk.blocks 3).data 0 = 65 ∧
    (fsE2.disk.blocks 3).data (-3996) = 66 ∧
    (fsE2.disk.blocks 3).data 0 = 0 := by decide

-- Claim C9

/-- C9 counterexample: after deleting the 10-byte file, the invalidated
inode slot has size -4086 (10 - 4096) and still holds its direct pointer 2:
fs_delete does not restore size = 0 or clear pointers, refuting the
invariant that invalid slots have size 0 and all pointers 0. -/
theorem c9_invariant_counterexample :
    (fs_delete fsD 1).1 = 1 ∧
    (inode_load fsI.disk 1).isvalid = 0 ∧
    (inode_load fsI.disk 1).size = -4086 ∧
    (inode_load fsI.disk 1).direct 0 = 2 := by decide

/-- C9 (amended): a successful fs_delete invalidates the slot (valid
becomes false), but does not reset the slot's size or pointer fields, so
the unused-slot invariant "invalid implies size 0 and pointers 0" is not
preserved by delete. -/
theorem c9_delete_invalidates (fs : FS) (inumber : Int)
    (hm : fs.is_mounted = true) (hv : is_valid_inumber fs.disk inumber = true) :
    (fs_delete fs inumber).1 = 1 ∧
    (inode_load (fs_delete fs inumber).2.disk inumber).isvalid = 0 := by
  unfold fs_delete
  simp [hm, hv, inode_load_save]

/-- Witness for c9_delete_invalidates at a concrete input. -/
theorem c9_delete_invalidates_witness :
    (fs_delete fsC 1).1 = 1 ∧
    (inode_load (fs_delete fsC 1).2.disk 1).isvalid = 0 :=
  c9_delete_invalidates fsC 1 (by decide) (by decide)

-- Claim C1 counterexample

/-- C1 counterexample: the write of 2 bytes at offset 4 into the 10-byte
file succeeds returning 2, but reading back exactly the same range
[4, 6) returns 10 bytes, not the 2 bytes written (the final-block branch of
fs_read copies the whole remaining file size). -/
theorem c1_round_trip_counterexample :
    (fs_write fsD 1 dataB 2 4 zeros izeros).1 = 2 ∧
    (fs_read fsD2 1 zeros 2 4).1 = 10 := by decide

-- Claim C4 counterexample

/-- C4 counterexample: fs_create does not clear the indirect pointer.  In
fsG, slot 1 is invalid (it held a deleted 6-block file) with a stale
indirect pointer 7; create returns inumber 1, but the recreated inode's
indirect field is still 7, not 0. -/
theorem c4_create_counterexample :
    (inode_load fsG.disk 1).isvalid = 0 ∧
    (fs_create fsG).1 = 1 ∧
    (inode_load fsH.disk 1).indirect = 7 := by decide

-- Claim C7

/-- C7 counterexample: fs_read enumerates file blocks in ascending
block-number order, not direct-slot order.  File 2 has direct = [3, 2]
(slot 0 points to block 3, whose first byte is 66); yet reading byte 0 of
the file returns 67, the first byte of block 2 — the numerically smaller
block, from slot 1. -/
theorem c7_slot_order_counterexample :
    (inode_load w3.disk 2).direct 0 = 3 ∧
    (inode_load w3.disk 2).direct 1 = 2 ∧
    (w3.disk.blocks 3).data 0 = 66 ∧
    (fs_read w3 2 zeros 1 0).1 = 1 ∧
    (fs_read w3 2 zeros 1 0).2 0 = 67 ∧
    (w3.disk.blocks 2).data 0 = 67 := by decide

/-- C7 (amended): the block containing logical offset k * BLOCK_SIZE is the
k-th referenced block in ascending block-number order (the loop scans block
ids upward over a membership bitmap); on the inode with direct = [3, 2]
this serves block 2 at offset 0 and block 3 at offset 4096, the opposite of
slot order. -/
theorem c7_ascending_block_order :
    (inode_load w3.disk 2).direct 0 = 3 ∧
    (inode_load w3.disk 2).direct 1 = 2 ∧
    (fs_read w3 2 zeros 1 0).2 0 = (w3.disk.blocks 2).data 0 ∧
    (fs_read w3 2 zeros 1 4096).2 0 = (w3.disk.blocks 3).data 0 := by decide

-- Claim C4 (amended part)

/-- The direct-pointer-clearing fold of fs_create zeroes slots 0..4. -/
theorem clearedDirect (f : Int → Int) (k : Int) (h0 : 0 ≤ k)
    (h5 : k < POINTERS_PER_INODE) :
    (intRange 0 POINTERS_PER_INODE).foldl (fun dir ptr => upd dir ptr 0) f k = 0 := by
  have h : intRange 0 POINTERS_PER_INODE = [0, 1, 2, 3, 4] := by decide
  rw [h]
  simp only [List.foldl]
  have h5a : k < 5 := by simpa [POINTERS_PER_INODE] using h5
  have : k = 0 ∨ k = 1 ∨ k = 2 ∨ k = 3 ∨ k = 4 := by omega
  rcases this with rfl | rfl | rfl | rfl | rfl <;> simp [upd]

/-- createScan finds the least invalid inumber in its scan range. -/
theorem createScan_finds (d : Disk) (i : Int) :
    ∀ (n : Nat) (lo : Int), lo ≤ i → i < lo + (n : Int) →
      (inode_load d i).isvalid = 0 →
      (∀ j, lo ≤ j → j < i → (inode_load d j).isvalid ≠ 0) →
      createScan d lo n =
        (i, inode_save d i
              { isvalid := 1, size := 0,
                direct := (intRange 0 POINTERS_PER_INODE).foldl
                            (fun dir ptr => upd dir ptr 0) (inode_load d i).direct,
                indirect := (inode_load d i).indirect }) := by
  intro n
  induction n with
  | zero =>
    intro lo h1 h2 _ _
    exfalso
    push_cast at h2
    omega
  | succ n ih =>
    intro lo h1 h2 hinv hprev
    by_cases hlo : lo = i
    · subst hlo
      simp only [createScan, hinv]
      simp
    · have hv := hprev lo le_rfl (by omega)
      simp only [createScan]
      rw [if_pos hv]
      push_cast at h2
      exact ih (lo + 1) (by omega) (by omega) hinv
        (fun j hj1 hj2 => hprev j (by omega) hj2)

/-- createScan returns the failure pair when every scanned slot is valid. -/
theorem createScan_full (d : Disk) :
    ∀ (n : Nat) (lo : Int),
      (∀ j, lo ≤ j → j < lo + (n : Int) → (inode_load d j).isvalid ≠ 0) →
      createScan d lo n = (0, d) := by
  intro n
  induction n with
  | zero => intro lo _; rfl
  | succ n ih =>
    intro lo h
    simp only [createScan]
    rw [if_pos (h lo le_rfl (by push_cast; omega))]
    exact ih (lo + 1) (fun j hj1 hj2 => h j (by omega) (by push_cast at hj2 ⊢; omega))

/-- C4 (amended): on a mounted volume fs_create returns the smallest
invalid inumber at least 1; the recreated inode has valid = 1, size = 0 and
all five direct pointers cleared, but its indirect field keeps whatever
value the slot previously held (fs_create does not clear it).  When every
slot from 1 to total_inodes - 1 is valid, fs_create returns 0 and leaves
the state unchanged. -/
theorem c4_create_first_fit (fs : FS) (hm : fs.is_mounted = true) :
    (∀ i, 1 ≤ i → i < (fs.disk.blocks 0).ninodes →
       (inode_load fs.disk i).isvalid = 0 →
       (∀ j, 1 ≤ j → j < i → (inode_load fs.disk j).isvalid ≠ 0) →
       (fs_create fs).1 = i ∧
       (inode_load (fs_create fs).2.disk i).isvalid = 1 ∧
       (inode_load (fs_create fs).2.disk i).size = 0 ∧
       (∀ k, 0 ≤ k → k < POINTERS_PER_INODE →
          (inode_load (fs_create fs).2.disk i).direct k = 0) ∧
       (inode_load (fs_create fs).2.disk i).indirect =
         (inode_load fs.disk i).indirect) ∧
    ((∀ j, 1 ≤ j → j < (fs.disk.blocks 0).ninodes →
        (inode_load fs.disk j).isvalid ≠ 0) →
     fs_create fs = (0, fs)) := by
  constructor
  · intro i h1 h2 hinv hprev
    have hscan := createScan_finds fs.disk i ((fs.disk.blocks 0).ninodes - 1).toNat 1
      h1 (by omega) hinv (fun j hj1 hj2 => hprev j hj1 hj2)
    unfold fs_create
    rw [hm]
    simp only [Bool.not_true, Bool.false_eq_true, if_false, hscan, inode_load_save]
    refine ⟨trivial, trivial, trivial, ?_, trivial⟩
    intro k hk0 hk5
    exact clearedDirect _ k hk0 hk5
  · intro hall
    unfold fs_create
    rw [hm]
    have hscan := createScan_full fs.disk ((fs.disk.blocks 0).ninodes - 1).toNat 1
      (fun j hj1 hj2 => hall j hj1 (by omega))
    simp only [Bool.not_true, Bool.false_eq_true, if_false, hscan]
    rw [← hm]

/-- Witness for c4_create_first_fit: on the freshly mounted volume, create
returns inumber 1 with the initialized fields. -/
theorem c4_create_first_fit_witness :
    (fs_create fsB).1 = 1 ∧
    (inode_load (fs_create fsB).2.disk 1).isvalid = 1 ∧
    (inode_load (fs_create fsB).2.disk 1).size = 0 ∧
    (inode_load (fs_create fsB).2.disk 1).direct 0 = 0 ∧
    (inode_load (fs_create fsB).2.disk 1).indirect =
      (inode_load fsB.disk 1).indirect := by
  have h := (c4_create_first_fit fsB (by decide)).1 1 (by decide) (by decide)
    (by decide) (fun j hj1 hj2 => absurd (lt_of_le_of_lt hj1 hj2) (lt_irrefl 1))
  exact ⟨h.1, h.2.1, h.2.2.1, h.2.2.2.1 0 (by decide) (by decide), h.2.2.2.2⟩

-- Claim C6

theorem formatZeroLoop_nblocks (l : List Int) :
    ∀ d, (formatZeroLoop d l).nblocks = d.nblocks := by
  induction l with
  | nil => intro d; rfl
  | cons i rest ih =>
    intro d
    rw [formatZeroLoop, ih]
    rfl

theorem formatZeroLoop_blocks (l : List Int) :
    ∀ d b, (formatZeroLoop d l).blocks b =
      if b - 1 ∈ l then zeroRawBlock else d.blocks b := by
  induction l with
  | nil => intro d b; simp [formatZeroLoop]
  | cons i rest ih =>
    intro d b
    rw [formatZeroLoop, ih]
    by_cases hr : b - 1 ∈ rest
    · simp [hr]
    · by_cases hbi : b = i + 1
      · have : b - 1 = i := by omega
        simp [hr, hbi, this, writeBlock, upd]
      · have : ¬ (b - 1 = i) := by omega
        simp [hr, hbi, this, writeBlock, upd]

/-- C6: fs_format fails doing nothing when mounted.  Otherwise it succeeds;
the new superblock has the magic value, total_blocks equal to the device
block count, inode_blocks = ceil(total_blocks / 10) and total_inodes =
inode_blocks * 128; when the old block 0 carried the magic it zeroes the old
inode-table blocks 1 .. old ninodeblocks first, and when it did not, every
block other than block 0 is left untouched. -/
theorem c6_format_spec (fs : FS) :
    (fs.is_mounted = true → fs_format fs = (0, fs)) ∧
    (fs.is_mounted = false →
      (fs_format fs).1 = 1 ∧
      ((fs_format fs).2.disk.blocks 0).magic = FS_MAGIC ∧
      ((fs_format fs).2.disk.blocks 0).nblocks = fs.disk.nblocks ∧
      ((fs_format fs).2.disk.blocks 0).ninodeblocks = (fs.disk.nblocks + 9).ediv 10 ∧
      ((fs_format fs).2.disk.blocks 0).ninodes =
        ((fs.disk.nblocks + 9).ediv 10) * INODES_PER_BLOCK ∧
      ((fs.disk.blocks 0).magic = FS_MAGIC →
        ∀ b, 1 ≤ b → b ≤ (fs.disk.blocks 0).ninodeblocks →
          (fs_format fs).2.disk.blocks b = zeroRawBlock) ∧
      ((fs.disk.blocks 0).magic ≠ FS_MAGIC →
        ∀ b, b ≠ 0 → (fs_format fs).2.disk.blocks b = fs.disk.blocks b)) := by
  constructor
  · intro hm
    simp [fs_format, hm]
  · intro hm
    unfold fs_format
    rw [hm]
    simp only [Bool.false_eq_true, if_false]
    refine ⟨trivial, ?_, ?_, ?_, ?_, ?_, ?_⟩
    · simp [writeBlock, upd]
    · simp [writeBlock, upd]
    · simp [writeBlock, upd]
    · simp [writeBlock, upd]
    · intro hmagic b hb1 hb2
      simp only [writeBlock, upd, hmagic, if_pos]
      have hb0 : ¬ (b = 0) := by omega
      simp only [hb0, if_false]
      rw [formatZeroLoop_blocks]
      rw [if_pos (mem_intRange.mpr ⟨by omega, by omega⟩)]
    · intro hmagic b hb0
      simp only [writeBlock, upd, hmagic, if_false]
      simp only [hb0, if_false]

/-- Witness for c6_format_spec: on the mounted fsB format fails returning
(0, fsB); on the unmounted fresh fs0 it succeeds returning 1. -/
theorem c6_format_spec_witness :
    fs_format fsB = (0, fsB) ∧ (fs_format fs0).1 = 1 :=
  ⟨(c6_format_spec fsB).1 (by decide), ((c6_format_spec fs0).2 (by decide)).1⟩

set_option maxHeartbeats 1600000

/-- C8: driving the empty file of the freshly created inode 1 past
5 * DISK_BLOCK_SIZE in one write claims exactly one block (block 7) as the
indirect block, records it in the inode, leaves its data bytes untouched,
and records the subsequently allocated data blocks 8 and 9 in the indirect
block's pointer array. -/
theorem c8_indirect_allocation (L : Int) (data : Int → Nat) (scratch : Int → Nat) (iscratch : Int → Int)
    (h1 : 6 * DISK_BLOCK_SIZE < L) (h2 : L ≤ 7 * DISK_BLOCK_SIZE) :
    (fs_write fsC 1 data L 0 scratch iscratch).1 = L ∧
    (inode_load (fs_write fsC 1 data L 0 scratch iscratch).2.disk 1).indirect = 7 ∧
    (inode_load (fs_write fsC 1 data L 0 scratch iscratch).2.disk 1).size = L ∧
    ((fs_write fsC 1 data L 0 scratch iscratch).2.disk.blocks 7).pointers 0 = 8 ∧
    ((fs_write fsC 1 data L 0 scratch iscratch).2.disk.blocks 7).pointers 1 = 9 ∧
    (∀ j, ((fs_write fsC 1 data L 0 scratch iscratch).2.disk.blocks 7).data j =
          (fsC.disk.blocks 7).data j) ∧
    (fs_write fsC 1 data L 0 scratch iscratch).2.free_block_bm 7 = false := by
  have hL1 : 24576 < L := by simpa [DISK_BLOCK_SIZE] using h1
  have hL2 : L ≤ 28672 := by simpa [DISK_BLOCK_SIZE] using h2
  have hA0 : ¬ (L ≤ 0) := by omega
  have htd1 : (1 : Int).tdiv 128 = 0 := by decide
  have htmod1 : (1 : Int).tmod 128 = 1 := by decide
  have htm1 : ((-4096 : Int)).tmod 4096 = 0 := by decide
  have htm2 : ((-8192 : Int)).tmod 4096 = 0 := by decide
  have htm3 : ((-12288 : Int)).tmod 4096 = 0 := by decide
  have htm4 : ((-16384 : Int)).tmod 4096 = 0 := by decide
  have htm5 : ((-20480 : Int)).tmod 4096 = 0 := by decide
  have htm6 : ((-24576 : Int)).tmod 4096 = 0 := by decide
  rw [fsC_write_to_ext data L scratch iscratch hA0]
  simp only [extSt0]
  obtain ⟨D0, hD0⟩ : ∃ x, x = fsC.disk := ⟨_, rfl⟩
  obtain ⟨BM0, hBM0⟩ : ∃ x, x = fsC.free_block_bm := ⟨_, rfl⟩
  have hbm2 : BM0 2 = true := by rw [hBM0]; decide
  have hbm3 : BM0 3 = true := by rw [hBM0]; decide
  have hbm4 : BM0 4 = true := by rw [hBM0]; decide
  have hbm5 : BM0 5 = true := by rw [hBM0]; decide
  have hbm6 : BM0 6 = true := by rw [hBM0]; decide
  have hbm7 : BM0 7 = true := by rw [hBM0]; decide
  have hbm8 : BM0 8 = true := by rw [hBM0]; decide
  have hbm9 : BM0 9 = true := by rw [hBM0]; decide
  have hbm1 : BM0 1 = false := by rw [hBM0]; decide
  rw [← hD0, ← hBM0]
  rw [extStepSkip 1 data 0]
  rw [extStepDirect 1 data 0]
  rw [extStepDirect 1 data 0]
  rw [extStepDirect 1 data 0]
  rw [extStepDirect 1 data 0]
  rw [extStepDirect 1 data 0]
  rw [extStepClaim 1 data 0]
  rw [extStepIndirect 1 data 0]
  have hsz : ((D0.blocks 1).inode 1).size = 0 := by rw [hD0]; decide
  have hload : ∀ d : Disk, inode_load d 1 = (d.blocks 1).inode 1 := fun d => rfl
  by_cases hc : L < 28672
  case neg =>
    rw [extStepIndirect 1 data 0]
    rw [extLoop_nil]
    refine ⟨?_, ?_, ?_, ?_, ?_, ?_, ?_⟩
    · simp only [extNextDirect_length, extNextDirect_write_counter, extNextDirect_ino_size,
      extNextClaim_length, extNextClaim_write_counter, extNextClaim_ino_size,
      extNextIndirect_length, extNextIndirect_write_counter, extNextIndirect_ino_size,
      extNextDirect_bm, extNextClaim_bm, extNextIndirect_bm,
      extNextDirect_free_direct, extNextClaim_free_direct, extNextIndirect_free_direct,
      extNextDirect_free_indirect, extNextClaim_free_indirect, extNextIndirect_free_indirect,
      extNextDirect_has_indirect, extNextClaim_has_indirect, extNextIndirect_has_indirect,
      extNextDirect_offset_ptr, extNextClaim_offset_ptr, extNextIndirect_offset_ptr,
      upd_eval, DISK_BLOCK_SIZE, POINTERS_PER_INODE, POINTERS_PER_BLOCK,
      Int.zero_tmod, Int.reduceNeg, Int.reduceSub, Int.reduceMul, Int.reduceAdd,
      Int.reduceEq, Int.reduceLT, Int.reduceLE, zero_add, add_zero, sub_zero,
      if_true, if_false, ite_true, ite_false, Bool.false_eq_true, Bool.true_eq_false,
      hbm2, hbm3, hbm4, hbm5, hbm6, hbm7, hbm8, hbm9, hbm1, htm1, htm2, htm3, htm4,
      htm5, htm6, hload, hsz]
      omega
    · rfl
    · rw [extNextIndirect_load]
      case hb => decide
      simp only [extNextDirect_length, extNextDirect_write_counter, extNextDirect_ino_size,
      extNextClaim_length, extNextClaim_write_counter, extNextClaim_ino_size,
      extNextIndirect_length, extNextIndirect_write_counter, extNextIndirect_ino_size,
      extNextDirect_bm, extNextClaim_bm, extNextIndirect_bm,
      extNextDirect_free_direct, extNextClaim_free_direct, extNextIndirect_free_direct,
      extNextDirect_free_indirect, extNextClaim_free_indirect, extNextIndirect_free_indirect,
      extNextDirect_has_indirect, extNextClaim_has_indirect, extNextIndirect_has_indirect,
      extNextDirect_offset_ptr, extNextClaim_offset_ptr, extNextIndirect_offset_ptr,
      upd_eval, DISK_BLOCK_SIZE, POINTERS_PER_INODE, POINTERS_PER_BLOCK,
      Int.zero_tmod, Int.reduceNeg, Int.reduceSub, Int.reduceMul, Int.reduceAdd,
      Int.reduceEq, Int.reduceLT, Int.reduceLE, zero_add, add_zero, sub_zero,
      if_true, if_false, ite_true, ite_false, Bool.false_eq_true, Bool.true_eq_false,
      hbm2, hbm3, hbm4, hbm5, hbm6, hbm7, hbm8, hbm9, hbm1, htm1, htm2, htm3, htm4,
      htm5, htm6, hload, hsz]
      omega
    · rfl
    · rfl
    · intro j
      rfl
    · rfl
    all_goals (simp only [extNextDirect_length, extNextDirect_write_counter, extNextDirect_ino_size,
      extNextClaim_length, extNextClaim_write_counter, extNextClaim_ino_size,
      extNextIndirect_length, extNextIndirect_write_counter, extNextIndirect_ino_size,
      extNextDirect_bm, extNextClaim_bm, extNextIndirect_bm,
      extNextDirect_free_direct, extNextClaim_free_direct, extNextIndirect_free_direct,
      extNextDirect_free_indirect, extNextClaim_free_indirect, extNextIndirect_free_indirect,
      extNextDirect_has_indirect, extNextClaim_has_indirect, extNextIndirect_has_indirect,
      extNextDirect_offset_ptr, extNextClaim_offset_ptr, extNextIndirect_offset_ptr,
      upd_eval, DISK_BLOCK_SIZE, POINTERS_PER_INODE, POINTERS_PER_BLOCK,
      Int.zero_tmod, Int.reduceNeg, Int.reduceSub, Int.reduceMul, Int.reduceAdd,
      Int.reduceEq, Int.reduceLT, Int.reduceLE, zero_add, add_zero, sub_zero,
      if_true, if_false, ite_true, ite_false, Bool.false_eq_true, Bool.true_eq_false,
      hbm2, hbm3, hbm4, hbm5, hbm6, hbm7, hbm8, hbm9, hbm1, htm1, htm2, htm3, htm4,
      htm5, htm6] <;> first | rfl | decide | omega)
  case pos =>
    rw [extStepIndirectLast 1 data 0]
    rw [extLoop_nil]
    refine ⟨?_, ?_, ?_, ?_, ?_, ?_, ?_⟩
    · simp only [extNextDirect_length, extNextDirect_write_counter, extNextDirect_ino_size,
      extNextClaim_length, extNextClaim_write_counter, extNextClaim_ino_size,
      extNextIndirect_length, extNextIndirect_write_counter, extNextIndirect_ino_size,
      extNextDirect_bm, extNextClaim_bm, extNextIndirect_bm,
      extNextDirect_free_direct, extNextClaim_free_direct, extNextIndirect_free_direct,
      extNextDirect_free_indirect, extNextClaim_free_indirect, extNextIndirect_free_indirect,
      extNextDirect_has_indirect, extNextClaim_has_indirect, extNextIndirect_has_indirect,
      extNextDirect_offset_ptr, extNextClaim_offset_ptr, extNextIndirect_offset_ptr,
      upd_eval, DISK_BLOCK_SIZE, POINTERS_PER_INODE, POINTERS_PER_BLOCK,
      Int.zero_tmod, Int.reduceNeg, Int.reduceSub, Int.reduceMul, Int.reduceAdd,
      Int.reduceEq, Int.reduceLT, Int.reduceLE, zero_add, add_zero, sub_zero,
      if_true, if_false, ite_true, ite_false, Bool.false_eq_true, Bool.true_eq_false,
      hbm2, hbm3, hbm4, hbm5, hbm6, hbm7, hbm8, hbm9, hbm1, htm1, htm2, htm3, htm4,
      htm5, htm6, hload, hsz]
      omega
    · rfl
    · rw [extNextIndirect_load]
      case hb => decide
      simp only [extNextDirect_length, extNextDirect_write_counter, extNextDirect_ino_size,
      extNextClaim_length, extNextClaim_write_counter, extNextClaim_ino_size,
      extNextIndirect_length, extNextIndirect_write_counter, extNextIndirect_ino_size,
      extNextDirect_bm, extNextClaim_bm, extNextIndirect_bm,
      extNextDirect_free_direct, extNextClaim_free_direct, extNextIndirect_free_direct,
      extNextDirect_free_indirect, extNextClaim_free_indirect, extNextIndirect_free_indirect,
      extNextDirect_has_indirect, extNextClaim_has_indirect, extNextIndirect_has_indirect,
      extNextDirect_offset_ptr, extNextClaim_offset_ptr, extNextIndirect_offset_ptr,
      upd_eval, DISK_BLOCK_SIZE, POINTERS_PER_INODE, POINTERS_PER_BLOCK,
      Int.zero_tmod, Int.reduceNeg, Int.reduceSub, Int.reduceMul, Int.reduceAdd,
      Int.reduceEq, Int.reduceLT, Int.reduceLE, zero_add, add_zero, sub_zero,
      if_true, if_false, ite_true, ite_false, Bool.false_eq_true, Bool.true_eq_false,
      hbm2, hbm3, hbm4, hbm5, hbm6, hbm7, hbm8, hbm9, hbm1, htm1, htm2, htm3, htm4,
      htm5, htm6, hload, hsz]
      omega
    · rfl
    · rfl
    · intro j
      rfl
    · rfl
    all_goals (simp only [extNextDirect_length, extNextDirect_write_counter, extNextDirect_ino_size,
      extNextClaim_length, extNextClaim_write_counter, extNextClaim_ino_size,
      extNextIndirect_length, extNextIndirect_write_counter, extNextIndirect_ino_size,
      extNextDirect_bm, extNextClaim_bm, extNextIndirect_bm,
      extNextDirect_free_direct, extNextClaim_free_direct, extNextIndirect_free_direct,
      extNextDirect_free_indirect, extNextClaim_free_indirect, extNextIndirect_free_indirect,
      extNextDirect_has_indirect, extNextClaim_has_indirect, extNextIndirect_has_indirect,
      extNextDirect_offset_ptr, extNextClaim_offset_ptr, extNextIndirect_offset_ptr,
      upd_eval, DISK_BLOCK_SIZE, POINTERS_PER_INODE, POINTERS_PER_BLOCK,
      Int.zero_tmod, Int.reduceNeg, Int.reduceSub, Int.reduceMul, Int.reduceAdd,
      Int.reduceEq, Int.reduceLT, Int.reduceLE, zero_add, add_zero, sub_zero,
      if_true, if_false, ite_true, ite_false, Bool.false_eq_true, Bool.true_eq_false,
      hbm2, hbm3, hbm4, hbm5, hbm6, hbm7, hbm8, hbm9, hbm1, htm1, htm2, htm3, htm4,
      htm5, htm6] <;> first | rfl | decide | omega)
  all_goals (simp only [extNextDirect_length, extNextDirect_write_counter, extNextDirect_ino_size,
      extNextClaim_length, extNextClaim_write_counter, extNextClaim_ino_size,
      extNextIndirect_length, extNextIndirect_write_counter, extNextIndirect_ino_size,
      extNextDirect_bm, extNextClaim_bm, extNextIndirect_bm,
      extNextDirect_free_direct, extNextClaim_free_direct, extNextIndirect_free_direct,
      extNextDirect_free_indirect, extNextClaim_free_indirect, extNextIndirect_free_indirect,
      extNextDirect_has_indirect, extNextClaim_has_indirect, extNextIndirect_has_indirect,
      extNextDirect_offset_ptr, extNextClaim_offset_ptr, extNextIndirect_offset_ptr,
      upd_eval, DISK_BLOCK_SIZE, POINTERS_PER_INODE, POINTERS_PER_BLOCK,
      Int.zero_tmod, Int.reduceNeg, Int.reduceSub, Int.reduceMul, Int.reduceAdd,
      Int.reduceEq, Int.reduceLT, Int.reduceLE, zero_add, add_zero, sub_zero,
      if_true, if_false, ite_true, ite_false, Bool.false_eq_true, Bool.true_eq_false,
      hbm2, hbm3, hbm4, hbm5, hbm6, hbm7, hbm8, hbm9, hbm1, htm1, htm2, htm3, htm4,
      htm5, htm6] <;> first | rfl | decide | omega)


/-- Witness for c8_indirect_allocation at L = 28672 with concrete buffers. -/
theorem c8_indirect_allocation_witness :
    (6 * DISK_BLOCK_SIZE < (28672 : Int) ∧ (28672 : Int) ≤ 7 * DISK_BLOCK_SIZE) ∧
    ((fs_write fsC 1 dataA 28672 0 zeros izeros).1 = 28672 ∧
     (inode_load (fs_write fsC 1 dataA 28672 0 zeros izeros).2.disk 1).indirect = 7 ∧
     (inode_load (fs_write fsC 1 dataA 28672 0 zeros izeros).2.disk 1).size = 28672 ∧
     ((fs_write fsC 1 dataA 28672 0 zeros izeros).2.disk.blocks 7).pointers 0 = 8 ∧
     ((fs_write fsC 1 dataA 28672 0 zeros izeros).2.disk.blocks 7).pointers 1 = 9 ∧
     (∀ j, ((fs_write fsC 1 dataA 28672 0 zeros izeros).2.disk.blocks 7).data j =
           (fsC.disk.blocks 7).data j) ∧
     (fs_write fsC 1 dataA 28672 0 zeros izeros).2.free_block_bm 7 = false) :=
  ⟨⟨by decide, by decide⟩,
   c8_indirect_allocation 28672 dataA zeros izeros (by decide) (by decide)⟩

-- Machinery: reducing fs_read on a volume produced by an extension write

theorem ptrWalk_nil (ptrs : Int → Int) (val : Bool) (st : (Int → Bool) × Int) :
    ptrWalk ptrs val [] st = st := rfl

theorem ptrWalkStop (ptrs : Int → Int) (val : Bool) (p : Int) (rest : List Int)
    (st : (Int → Bool) × Int) (h : st.2 ≤ 0) :
    ptrWalk ptrs val (p :: rest) st = st := by
  rw [ptrWalk, if_pos h]

theorem ptrWalkMark (ptrs : Int → Int) (val : Bool) (p : Int) (rest : List Int)
    (st : (Int → Bool) × Int) (h1 : ¬ st.2 ≤ 0) (h2 : ptrs p ≠ 0) :
    ptrWalk ptrs val (p :: rest) st =
      ptrWalk ptrs val rest (upd st.1 (ptrs p) val, st.2 - DISK_BLOCK_SIZE) := by
  rw [ptrWalk, if_neg h1, if_pos h2]

/-- One full-block iteration of the read loop at a block-aligned position. -/
def readNextChunk (d : Disk) (b : Int) (st : ReadSt) : ReadSt :=
  { st with
    out := memcpy st.out st.read_counter (d.blocks b).data 0 DISK_BLOCK_SIZE,
    read_counter := st.read_counter + DISK_BLOCK_SIZE,
    length := st.length - DISK_BLOCK_SIZE,
    offset_ptr := st.offset_ptr + 1,
    size := st.size - DISK_BLOCK_SIZE,
    n_block := st.n_block + 1 }

/-- The terminal small-size iteration of the read loop at a block-aligned
position (the branch that copies `size` bytes and returns). -/
def readNextSmall (d : Disk) (b : Int) (st : ReadSt) : ReadSt :=
  { st with
    out := memcpy st.out st.read_counter (d.blocks b).data 0 st.size,
    read_counter := st.read_counter + st.size }

section ReadProj
variable (d : Disk) (b : Int) (st : ReadSt)

@[simp] theorem readNextChunk_length : (readNextChunk d b st).length = st.length - DISK_BLOCK_SIZE := rfl
@[simp] theorem readNextChunk_size : (readNextChunk d b st).size = st.size - DISK_BLOCK_SIZE := rfl
@[simp] theorem readNextChunk_offset_ptr : (readNextChunk d b st).offset_ptr = st.offset_ptr + 1 := rfl
@[simp] theorem readNextChunk_n_block : (readNextChunk d b st).n_block = st.n_block + 1 := rfl
@[simp] theorem readNextChunk_read_counter : (readNextChunk d b st).read_counter = st.read_counter + DISK_BLOCK_SIZE := rfl
@[simp] theorem readNextChunk_out : (readNextChunk d b st).out = memcpy st.out st.read_counter (d.blocks b).data 0 DISK_BLOCK_SIZE := rfl

@[simp] theorem readNextSmall_length : (readNextSmall d b st).length = st.length := rfl
@[simp] theorem readNextSmall_size : (readNextSmall d b st).size = st.size := rfl
@[simp] theorem readNextSmall_offset_ptr : (readNextSmall d b st).offset_ptr = st.offset_ptr := rfl
@[simp] theorem readNextSmall_n_block : (readNextSmall d b st).n_block = st.n_block := rfl
@[simp] theorem readNextSmall_read_counter : (readNextSmall d b st).read_counter = st.read_counter + st.size := rfl
@[simp] theorem readNextSmall_out : (readNextSmall d b st).out = memcpy st.out st.read_counter (d.blocks b).data 0 st.size := rfl

end ReadProj

theorem readStepStop (d : Disk) (marks : Int → Bool) (offset b : Int)
    (rest : List Int) (st : ReadSt) (h1 : st.length ≤ 0 ∨ st.size ≤ 0) :
    readLoop d marks offset (b :: rest) st = st := by
  rw [readLoop, if_pos h1]

theorem readStepSkip (d : Disk) (marks : Int → Bool) (offset b : Int)
    (rest : List Int) (st : ReadSt) (h1 : ¬ (st.length ≤ 0 ∨ st.size ≤ 0))
    (h2 : marks b = false) :
    readLoop d marks offset (b :: rest) st = readLoop d marks offset rest st := by
  rw [readLoop, if_neg h1]
  simp [h2]

theorem readStepSmall (d : Disk) (marks : Int → Bool) (offset b : Int)
    (rest : List Int) (st : ReadSt) (h1 : ¬ (st.length ≤ 0 ∨ st.size ≤ 0))
    (h2 : marks b = true) (h3 : st.offset_ptr = st.n_block)
    (hbo : (offset - st.offset_ptr * DISK_BLOCK_SIZE).tmod DISK_BLOCK_SIZE = 0)
    (h4 : st.size < DISK_BLOCK_SIZE) :
    readLoop d marks offset (b :: rest) st = readNextSmall d b st := by
  rw [readLoop, if_neg h1]
  rw [h3] at hbo
  simp only [h2, h3, h4, hbo, eq_self_iff_true, if_true, ite_true, readNextSmall]

theorem readStepChunk (d : Disk) (marks : Int → Bool) (offset b : Int)
    (rest : List Int) (st : ReadSt) (h1 : ¬ (st.length ≤ 0 ∨ st.size ≤ 0))
    (h2 : marks b = true) (h3 : st.offset_ptr = st.n_block)
    (hbo : (offset - st.offset_ptr * DISK_BLOCK_SIZE).tmod DISK_BLOCK_SIZE = 0)
    (h4 : ¬ st.size < DISK_BLOCK_SIZE)
    (h5 : ¬ ((offset - st.offset_ptr * DISK_BLOCK_SIZE).tmod DISK_BLOCK_SIZE + st.length
              < DISK_BLOCK_SIZE)) :
    readLoop d marks offset (b :: rest) st =
      readLoop d marks offset rest (readNextChunk d b st) := by
  rw [readLoop, if_neg h1]
  rw [h3] at hbo h5
  rw [hbo, zero_add] at h5
  simp only [h2, h3, h4, h5, hbo, eq_self_iff_true, if_true, ite_true, if_false,
             ite_false, zero_add, sub_zero, readNextChunk]

theorem readLoop_nil (d : Disk) (marks : Int → Bool) (offset : Int) (st : ReadSt) :
    readLoop d marks offset [] st = st := rfl

/-- fs_read on a volume that differs from fsC only in disk contents and
free-block tracker, with all three preconditions satisfied, reduces to the
marking walk plus the block loop. -/
theorem fs_read_post (d : Disk) (bm : Int → Bool) (inumber : Int) (data0 : Int → Nat)
    (length offset : Int)
    (hv : is_valid_inumber d inumber = true)
    (hlen : ¬ (length ≤ 0 ∨ offset < 0))
    (hoff : ¬ offset ≥ (inode_load d inumber).size) :
    fs_read { fsC with disk := d, free_block_bm := bm } inumber data0 length offset =
      ((readLoop d
          (if (ptrWalk (inode_load d inumber).direct true (intRange 0 POINTERS_PER_INODE)
                ((fun _ => false), (inode_load d inumber).size)).2 > 0 ∧
              (inode_load d inumber).indirect ≠ 0 then
             (ptrWalk (d.blocks (inode_load d inumber).indirect).pointers true
               (intRange 0 POINTERS_PER_BLOCK)
               (ptrWalk (inode_load d inumber).direct true (intRange 0 POINTERS_PER_INODE)
                 ((fun _ => false), (inode_load d inumber).size))).1
           else
             (ptrWalk (inode_load d inumber).direct true (intRange 0 POINTERS_PER_INODE)
               ((fun _ => false), (inode_load d inumber).size)).1)
          offset (intRange 0 (d.blocks 0).nblocks)
          { length := length, size := (inode_load d inumber).size,
            offset_ptr := offset.tdiv DISK_BLOCK_SIZE, n_block := 0,
            read_counter := 0, out := data0 }).read_counter,
       (readLoop d
          (if (ptrWalk (inode_load d inumber).direct true (intRange 0 POINTERS_PER_INODE)
                ((fun _ => false), (inode_load d inumber).size)).2 > 0 ∧
              (inode_load d inumber).indirect ≠ 0 then
             (ptrWalk (d.blocks (inode_load d inumber).indirect).pointers true
               (intRange 0 POINTERS_PER_BLOCK)
               (ptrWalk (inode_load d inumber).direct true (intRange 0 POINTERS_PER_INODE)
                 ((fun _ => false), (inode_load d inumber).size))).1
           else
             (ptrWalk (inode_load d inumber).direct true (intRange 0 POINTERS_PER_INODE)
               ((fun _ => false), (inode_load d inumber).size)).1)
          offset (intRange 0 (d.blocks 0).nblocks)
          { length := length, size := (inode_load d inumber).size,
            offset_ptr := offset.tdiv DISK_BLOCK_SIZE, n_block := 0,
            read_counter := 0, out := data0 }).out) := by
  have hm : ({ fsC with disk := d, free_block_bm := bm } : FS).is_mounted = true := rfl
  have hdk : ({ fsC with disk := d, free_block_bm := bm } : FS).disk = d := rfl
  unfold fs_read
  rw [hdk, hm, hv]
  simp only [Bool.not_true, Bool.or_self, Bool.false_eq_true, if_false]
  rw [if_neg hlen]
  simp only [hoff, if_false, ite_false]

section ExtSt0Proj

theorem extSt0_length (L : Int) (scratch : Int → Nat) : (extSt0 L scratch).length = L := rfl
theorem extSt0_bm (L : Int) (scratch : Int → Nat) : (extSt0 L scratch).bm = fsC.free_block_bm := rfl
theorem extSt0_ino (L : Int) (scratch : Int → Nat) : (extSt0 L scratch).ino = inode_load fsC.disk 1 := rfl
theorem extSt0_disk (L : Int) (scratch : Int → Nat) : (extSt0 L scratch).disk = fsC.disk := rfl
theorem extSt0_free_direct (L : Int) (scratch : Int → Nat) : (extSt0 L scratch).free_direct = POINTERS_PER_INODE := rfl
theorem extSt0_free_indirect (L : Int) (scratch : Int → Nat) : (extSt0 L scratch).free_indirect = POINTERS_PER_BLOCK := rfl
theorem extSt0_has_indirect (L : Int) (scratch : Int → Nat) : (extSt0 L scratch).has_indirect = false := rfl
theorem extSt0_offset_ptr (L : Int) (scratch : Int → Nat) : (extSt0 L scratch).offset_ptr = 0 := rfl
theorem extSt0_write_counter (L : Int) (scratch : Int → Nat) : (extSt0 L scratch).write_counter = 0 := rfl
theorem extSt0_buf (L : Int) (scratch : Int → Nat) : (extSt0 L scratch).buf = scratch := rfl

theorem ptrWalkMark2 (ptrs : Int → Int) (val : Bool) (p : Int) (rest : List Int)
    (f : Int → Bool) (c : Int) (h1 : ¬ c ≤ 0) (h2 : ptrs p ≠ 0) :
    ptrWalk ptrs val (p :: rest) (f, c) =
      ptrWalk ptrs val rest (upd f (ptrs p) val, c - DISK_BLOCK_SIZE) := by
  rw [ptrWalk, if_neg h1, if_pos h2]

theorem ptrWalkStop2 (ptrs : Int → Int) (val : Bool) (p : Int) (rest : List Int)
    (f : Int → Bool) (c : Int) (h : c ≤ 0) :
    ptrWalk ptrs val (p :: rest) (f, c) = (f, c) := by
  rw [ptrWalk, if_pos h]

end ExtSt0Proj

set_option maxHeartbeats 3200000
set_option linter.unreachableTactic false
set_option linter.unusedTactic false
set_option linter.unusedVariables false

/-- C1 (amended): on the freshly created empty file of fsC, a write of L
bytes at offset 0 (0 < L, up to two blocks) returns L, and a subsequent
read of the full range [0, L) at offset 0 returns exactly L and the bytes
that were written. -/
theorem c1_round_trip_offset_zero (L : Int) (data : Int → Nat) (scratch : Int → Nat)
    (iscratch : Int → Int) (data0 : Int → Nat)
    (h1 : 0 < L) (h2 : L ≤ 2 * DISK_BLOCK_SIZE) :
    (fs_write fsC 1 data L 0 scratch iscratch).1 = L ∧
    (fs_read (fs_write fsC 1 data L 0 scratch iscratch).2 1 data0 L 0).1 = L ∧
    (∀ i, 0 ≤ i → i < L →
      (fs_read (fs_write fsC 1 data L 0 scratch iscratch).2 1 data0 L 0).2 i = data i) := by
  have hL1 : 0 < L := h1
  have hL2 : L ≤ 8192 := by simpa [DISK_BLOCK_SIZE] using h2
  have hA0 : ¬ (L ≤ 0) := by omega
  have hDBS : DISK_BLOCK_SIZE = 4096 := rfl
  have htd1 : (1 : Int).tdiv 128 = 0 := by decide
  have htmod1 : (1 : Int).tmod 128 = 1 := by decide
  have htm1 : ((-4096 : Int)).tmod 4096 = 0 := by decide
  have htm2 : ((-8192 : Int)).tmod 4096 = 0 := by decide
  have htm3 : ((-12288 : Int)).tmod 4096 = 0 := by decide
  have htm4 : ((-16384 : Int)).tmod 4096 = 0 := by decide
  have htp0 : ((0 : Int)).tmod 5 = 0 := by decide
  have htp1 : ((1 : Int)).tmod 5 = 1 := by decide
  have htp2 : ((2 : Int)).tmod 5 = 2 := by decide
  have htp3 : ((3 : Int)).tmod 5 = 3 := by decide
  have htp4 : ((4 : Int)).tmod 5 = 4 := by decide
  have hni2 : (fsC.disk.blocks 0).ninodes = 128 := by decide
  have hnb2 : (fsC.disk.blocks 0).nblocks = 10 := by decide
  have htdv0 : (0 : Int).tdiv DISK_BLOCK_SIZE = 0 := by decide
  have hIR5 : intRange 0 POINTERS_PER_INODE = [0, 1, 2, 3, 4] := by decide
  have hIR10 : intRange 0 10 = [0, 1, 2, 3, 4, 5, 6, 7, 8, 9] := by decide
  have hfst : ∀ (f : Int → Bool) (c : Int), ((f, c) : (Int → Bool) × Int).1 = f := fun f c => rfl
  rw [fsC_write_to_ext data L scratch iscratch hA0]
  obtain ⟨S0, hS0⟩ : ∃ x, x = extSt0 L scratch := ⟨_, rfl⟩
  rw [← hS0]
  have hlen0 : S0.length = L := by rw [hS0, extSt0_length]
  have hbm0_1 : S0.bm 1 = false := by rw [hS0, extSt0_bm]; decide
  have hbm0_2 : S0.bm 2 = true := by rw [hS0, extSt0_bm]; decide
  have hbm0_3 : S0.bm 3 = true := by rw [hS0, extSt0_bm]; decide
  have hbm0_4 : S0.bm 4 = true := by rw [hS0, extSt0_bm]; decide
  have hbm0_5 : S0.bm 5 = true := by rw [hS0, extSt0_bm]; decide
  have hbm0_6 : S0.bm 6 = true := by rw [hS0, extSt0_bm]; decide
  have hfd0 : S0.free_direct = 5 := by rw [hS0, extSt0_free_direct]; decide
  have hhi0 : S0.has_indirect = false := by rw [hS0, extSt0_has_indirect]
  have hop0 : S0.offset_ptr = 0 := by rw [hS0, extSt0_offset_ptr]
  have hwc0 : S0.write_counter = 0 := by rw [hS0, extSt0_write_counter]
  have hisz0 : S0.ino.size = 0 := by rw [hS0, extSt0_ino]; decide
  have hiiv0 : S0.ino.isvalid = 1 := by rw [hS0, extSt0_ino]; decide
  have hiind0 : S0.ino.indirect = 0 := by rw [hS0, extSt0_ino]; decide
  have hid0_0 : S0.ino.direct 0 = 0 := by rw [hS0, extSt0_ino]; decide
  have hid1_0 : S0.ino.direct 1 = 0 := by rw [hS0, extSt0_ino]; decide
  have hid2_0 : S0.ino.direct 2 = 0 := by rw [hS0, extSt0_ino]; decide
  have hid3_0 : S0.ino.direct 3 = 0 := by rw [hS0, extSt0_ino]; decide
  have hid4_0 : S0.ino.direct 4 = 0 := by rw [hS0, extSt0_ino]; decide
  have hb0_0 : S0.disk.blocks 0 = fsC.disk.blocks 0 := by rw [hS0, extSt0_disk]
  rw [extStepSkip 1 data 0]
  rotate_left 1
  · rw [hlen0] <;> omega
  · exact hbm0_1
  by_cases hq1 : L ≤ 4096
  ·
    by_cases hx1 : L = 4096
    ·
      rw [extStepDirect 1 data 0]
      rotate_left 1
      · rw [hlen0] <;> omega
      · exact hbm0_2
      · rw [hfd0]; exact fun hcon => absurd hcon.1 (by decide)
      · rw [hop0]; decide
      · rw [hlen0, hDBS] <;> omega
      · rw [hfd0]; decide
      obtain ⟨S1, hS1⟩ : ∃ x, x = extNextDirect 1 data 2 DISK_BLOCK_SIZE S0 := ⟨_, rfl⟩
      rw [← hS1]
      have hlen1 : S1.length = L - 4096 := by rw [hS1, extNextDirect_length, hlen0, hDBS] <;> omega
      have hwc1 : S1.write_counter = 4096 := by rw [hS1, extNextDirect_write_counter, hwc0, hDBS] <;> omega
      have hisz1 : S1.ino.size = 4096 := by rw [hS1, extNextDirect_ino_size, hisz0, hDBS] <;> omega
      have hfd1 : S1.free_direct = 4 := by rw [hS1, extNextDirect_free_direct, hfd0] <;> omega
      have hhi1 : S1.has_indirect = false := by rw [hS1, extNextDirect_has_indirect]; exact hhi0
      have hop1 : S1.offset_ptr = 1 := by rw [hS1, extNextDirect_offset_ptr, hop0] <;> omega
      have hiiv1 : S1.ino.isvalid = 1 := by rw [hS1, extNextDirect_ino_isvalid]; exact hiiv0
      have hiind1 : S1.ino.indirect = 0 := by rw [hS1, extNextDirect_ino_indirect]; exact hiind0
      have hid0_1 : S1.ino.direct 0 = 2 := by rw [hS1, extNextDirect_ino_direct, hfd0]; simp only [upd_eval, POINTERS_PER_INODE, Int.reduceSub, htp0, Int.reduceEq, if_true, ite_true]
      have hbm1_3 : S1.bm 3 = true := by rw [hS1, extNextDirect_bm]; simp only [upd_eval, Int.reduceEq, if_false, ite_false]; exact hbm0_3
      have hbm1_4 : S1.bm 4 = true := by rw [hS1, extNextDirect_bm]; simp only [upd_eval, Int.reduceEq, if_false, ite_false]; exact hbm0_4
      have hbm1_5 : S1.bm 5 = true := by rw [hS1, extNextDirect_bm]; simp only [upd_eval, Int.reduceEq, if_false, ite_false]; exact hbm0_5
      have hbm1_6 : S1.bm 6 = true := by rw [hS1, extNextDirect_bm]; simp only [upd_eval, Int.reduceEq, if_false, ite_false]; exact hbm0_6
      have hb0_1 : S1.disk.blocks 0 = fsC.disk.blocks 0 := by rw [hS1, extNextDirect_disk_blocks]; simp only [Int.reduceEq, if_false, ite_false, inode_save_blocks, INODES_PER_BLOCK, htd1, Int.reduceAdd]; exact hb0_0
      have hdat2_1 : (S1.disk.blocks 2).data = memcpy S0.buf 0 data 0 4096 := by rw [hS1, extNextDirect_disk_blocks]; simp only [Int.reduceEq, if_true, ite_true]; rw [hwc0, hDBS]
      rw [extStepStop 1 data 0]
      rotate_left 1
      · rw [hlen1] <;> omega
      have hwcF : S1.write_counter = L := by rw [hwc1] <;> omega
      have hiszF : S1.ino.size = L := by rw [hisz1] <;> omega
      have hld : inode_load S1.disk 1 = S1.ino := by rw [hS1]; exact extNextDirect_load 1 data 2 DISK_BLOCK_SIZE S0 (by decide)
      rw [fs_read_post]
      rotate_left 1
      · simp only [is_valid_inumber, hld, hb0_1, hiiv1, hni2]
        decide
      · omega
      · rw [hld, hiszF] <;> omega
      rw [hld, hiszF, hiind1]
      simp only [ne_eq, Int.reduceEq, not_true, and_false, if_false, ite_false]
      rw [hIR5]
      rw [ptrWalkMark2]
      rotate_left 1
      · omega
      · rw [hid0_1]; decide
      rw [hid0_1]
      rw [ptrWalkStop2]
      rotate_left 1
      · simp only [hDBS] <;> omega
      rw [hfst]
      rw [hb0_1, hnb2, hIR10, htdv0]
      obtain ⟨R0, hR0⟩ : ∃ x, x = ({ length := L, size := L, offset_ptr := 0, n_block := 0, read_counter := 0, out := data0 } : ReadSt) := ⟨_, rfl⟩
      rw [← hR0]
      have hRlen0 : R0.length = L := by rw [hR0]
      have hRsize0 : R0.size = L := by rw [hR0]
      have hRop0 : R0.offset_ptr = 0 := by rw [hR0]
      have hRnb0 : R0.n_block = 0 := by rw [hR0]
      have hRrc0 : R0.read_counter = 0 := by rw [hR0]
      have hRout0 : R0.out = data0 := by rw [hR0]
      rw [readStepSkip]
      rotate_left 1
      · rw [hRlen0, hRsize0] <;> omega
      · decide
      rw [readStepSkip]
      rotate_left 1
      · rw [hRlen0, hRsize0] <;> omega
      · decide
      rw [readStepChunk]
      rotate_left 1
      · rw [hRlen0, hRsize0] <;> omega
      · decide
      · rw [hRop0, hRnb0]
      · rw [hRop0]; decide
      · rw [hRsize0, hDBS] <;> omega
      · rw [hRop0, hRlen0]; simp only [hDBS, Int.reduceMul, Int.reduceNeg, Int.reduceSub, Int.zero_tmod, htm1, htm2, htm3, htm4, zero_add] <;> omega
      obtain ⟨R1, hR1⟩ : ∃ x, x = readNextChunk S1.disk 2 R0 := ⟨_, rfl⟩
      rw [← hR1]
      have hRlen1 : R1.length = L - 4096 := by rw [hR1, readNextChunk_length, hRlen0, hDBS] <;> omega
      have hRsize1 : R1.size = L - 4096 := by rw [hR1, readNextChunk_size, hRsize0, hDBS] <;> omega
      have hRop1 : R1.offset_ptr = 1 := by rw [hR1, readNextChunk_offset_ptr, hRop0] <;> omega
      have hRnb1 : R1.n_block = 1 := by rw [hR1, readNextChunk_n_block, hRnb0] <;> omega
      have hRrc1 : R1.read_counter = 4096 := by rw [hR1, readNextChunk_read_counter, hRrc0, hDBS] <;> omega
      have hRout1 : R1.out = memcpy R0.out 0 (memcpy S0.buf 0 data 0 4096) 0 DISK_BLOCK_SIZE := by rw [hR1, readNextChunk_out, hRrc0, hdat2_1]
      rw [readStepStop]
      rotate_left 1
      · rw [hRlen1] <;> omega
      have hRrcF : R1.read_counter = L := by rw [hRrc1] <;> omega
      refine ⟨hwcF, hRrcF, ?_⟩
      intro i hi0 hiL
      simp only [hRout1, hRout0, memcpy, hDBS]
      split_ifs <;> first | rfl | omega | (congr 1; omega) | (exfalso; omega)
    ·
      rw [extStepDirectLast 1 data 0]
      rotate_left 1
      · rw [hlen0] <;> omega
      · exact hbm0_2
      · rw [hfd0]; exact fun hcon => absurd hcon.1 (by decide)
      · rw [hop0]; decide
      · rw [hlen0, hDBS] <;> omega
      · rw [hfd0]; decide
      obtain ⟨S1, hS1⟩ : ∃ x, x = extNextDirect 1 data 2 S0.length S0 := ⟨_, rfl⟩
      rw [← hS1]
      have hlen1 : S1.length = 0 := by rw [hS1, extNextDirect_length] <;> omega
      have hwc1 : S1.write_counter = L := by rw [hS1, extNextDirect_write_counter, hwc0, hlen0] <;> omega
      have hisz1 : S1.ino.size = L := by rw [hS1, extNextDirect_ino_size, hisz0, hlen0] <;> omega
      have hfd1 : S1.free_direct = 4 := by rw [hS1, extNextDirect_free_direct, hfd0] <;> omega
      have hhi1 : S1.has_indirect = false := by rw [hS1, extNextDirect_has_indirect]; exact hhi0
      have hop1 : S1.offset_ptr = 1 := by rw [hS1, extNextDirect_offset_ptr, hop0] <;> omega
      have hiiv1 : S1.ino.isvalid = 1 := by rw [hS1, extNextDirect_ino_isvalid]; exact hiiv0
      have hiind1 : S1.ino.indirect = 0 := by rw [hS1, extNextDirect_ino_indirect]; exact hiind0
      have hid0_1 : S1.ino.direct 0 = 2 := by rw [hS1, extNextDirect_ino_direct, hfd0]; simp only [upd_eval, POINTERS_PER_INODE, Int.reduceSub, htp0, Int.reduceEq, if_true, ite_true]
      have hbm1_3 : S1.bm 3 = true := by rw [hS1, extNextDirect_bm]; simp only [upd_eval, Int.reduceEq, if_false, ite_false]; exact hbm0_3
      have hbm1_4 : S1.bm 4 = true := by rw [hS1, extNextDirect_bm]; simp only [upd_eval, Int.reduceEq, if_false, ite_false]; exact hbm0_4
      have hbm1_5 : S1.bm 5 = true := by rw [hS1, extNextDirect_bm]; simp only [upd_eval, Int.reduceEq, if_false, ite_false]; exact hbm0_5
      have hbm1_6 : S1.bm 6 = true := by rw [hS1, extNextDirect_bm]; simp only [upd_eval, Int.reduceEq, if_false, ite_false]; exact hbm0_6
      have hb0_1 : S1.disk.blocks 0 = fsC.disk.blocks 0 := by rw [hS1, extNextDirect_disk_blocks]; simp only [Int.reduceEq, if_false, ite_false, inode_save_blocks, INODES_PER_BLOCK, htd1, Int.reduceAdd]; exact hb0_0
      have hdat2_1 : (S1.disk.blocks 2).data = memcpy S0.buf 0 data 0 L := by rw [hS1, extNextDirect_disk_blocks]; simp only [Int.reduceEq, if_true, ite_true]; rw [hwc0, hlen0]
      rw [extStepStop 1 data 0]
      rotate_left 1
      · rw [hlen1] <;> omega
      have hwcF : S1.write_counter = L := hwc1
      have hiszF : S1.ino.size = L := hisz1
      have hld : inode_load S1.disk 1 = S1.ino := by rw [hS1]; exact extNextDirect_load 1 data 2 S0.length S0 (by decide)
      rw [fs_read_post]
      rotate_left 1
      · simp only [is_valid_inumber, hld, hb0_1, hiiv1, hni2]
        decide
      · omega
      · rw [hld, hiszF] <;> omega
      rw [hld, hiszF, hiind1]
      simp only [ne_eq, Int.reduceEq, not_true, and_false, if_false, ite_false]
      rw [hIR5]
      rw [ptrWalkMark2]
      rotate_left 1
      · omega
      · rw [hid0_1]; decide
      rw [hid0_1]
      rw [ptrWalkStop2]
      rotate_left 1
      · simp only [hDBS] <;> omega
      rw [hfst]
      rw [hb0_1, hnb2, hIR10, htdv0]
      obtain ⟨R0, hR0⟩ : ∃ x, x = ({ length := L, size := L, offset_ptr := 0, n_block := 0, read_counter := 0, out := data0 } : ReadSt) := ⟨_, rfl⟩
      rw [← hR0]
      have hRlen0 : R0.length = L := by rw [hR0]
      have hRsize0 : R0.size = L := by rw [hR0]
      have hRop0 : R0.offset_ptr = 0 := by rw [hR0]
      have hRnb0 : R0.n_block = 0 := by rw [hR0]
      have hRrc0 : R0.read_counter = 0 := by rw [hR0]
      have hRout0 : R0.out = data0 := by rw [hR0]
      rw [readStepSkip]
      rotate_left 1
      · rw [hRlen0, hRsize0] <;> omega
      · decide
      rw [readStepSkip]
      rotate_left 1
      · rw [hRlen0, hRsize0] <;> omega
      · decide
      rw [readStepSmall]
      rotate_left 1
      · rw [hRlen0, hRsize0] <;> omega
      · decide
      · rw [hRop0, hRnb0]
      · rw [hRop0]; decide
      · rw [hRsize0, hDBS] <;> omega
      obtain ⟨R1, hR1⟩ : ∃ x, x = readNextSmall S1.disk 2 R0 := ⟨_, rfl⟩
      rw [← hR1]
      have hRrc1 : R1.read_counter = L := by rw [hR1, readNextSmall_read_counter, hRrc0, hRsize0] <;> omega
      have hRout1 : R1.out = memcpy R0.out 0 (memcpy S0.buf 0 data 0 L) 0 L := by rw [hR1, readNextSmall_out, hRrc0, hRsize0, hdat2_1]
      have hRrcF : R1.read_counter = L := hRrc1
      refine ⟨hwcF, hRrcF, ?_⟩
      intro i hi0 hiL
      simp only [hRout1, hRout0, memcpy, hDBS]
      split_ifs <;> first | rfl | omega | (congr 1; omega) | (exfalso; omega)
  ·
    by_cases hx2 : L = 8192
    ·
      rw [extStepDirect 1 data 0]
      rotate_left 1
      · rw [hlen0] <;> omega
      · exact hbm0_2
      · rw [hfd0]; exact fun hcon => absurd hcon.1 (by decide)
      · rw [hop0]; decide
      · rw [hlen0, hDBS] <;> omega
      · rw [hfd0]; decide
      obtain ⟨S1, hS1⟩ : ∃ x, x = extNextDirect 1 data 2 DISK_BLOCK_SIZE S0 := ⟨_, rfl⟩
      rw [← hS1]
      have hlen1 : S1.length = L - 4096 := by rw [hS1, extNextDirect_length, hlen0, hDBS] <;> omega
      have hwc1 : S1.write_counter = 4096 := by rw [hS1, extNextDirect_write_counter, hwc0, hDBS] <;> omega
      have hisz1 : S1.ino.size = 4096 := by rw [hS1, extNextDirect_ino_size, hisz0, hDBS] <;> omega
      have hfd1 : S1.free_direct = 4 := by rw [hS1, extNextDirect_free_direct, hfd0] <;> omega
      have hhi1 : S1.has_indirect = false := by rw [hS1, extNextDirect_has_indirect]; exact hhi0
      have hop1 : S1.offset_ptr = 1 := by rw [hS1, extNextDirect_offset_ptr, hop0] <;> omega
      have hiiv1 : S1.ino.isvalid = 1 := by rw [hS1, extNextDirect_ino_isvalid]; exact hiiv0
      have hiind1 : S1.ino.indirect = 0 := by rw [hS1, extNextDirect_ino_indirect]; exact hiind0
      have hid0_1 : S1.ino.direct 0 = 2 := by rw [hS1, extNextDirect_ino_direct, hfd0]; simp only [upd_eval, POINTERS_PER_INODE, Int.reduceSub, htp0, Int.reduceEq, if_true, ite_true]
      have hid1_1 : S1.ino.direct 1 = 0 := by rw [hS1, extNextDirect_ino_direct, hfd0]; simp only [upd_eval, POINTERS_PER_INODE, Int.reduceSub, htp0, Int.reduceEq, if_false, ite_false]; exact hid1_0
      have hbm1_3 : S1.bm 3 = true := by rw [hS1, extNextDirect_bm]; simp only [upd_eval, Int.reduceEq, if_false, ite_false]; exact hbm0_3
      have hbm1_4 : S1.bm 4 = true := by rw [hS1, extNextDirect_bm]; simp only [upd_eval, Int.reduceEq, if_false, ite_false]; exact hbm0_4
      have hbm1_5 : S1.bm 5 = true := by rw [hS1, extNextDirect_bm]; simp only [upd_eval, Int.reduceEq, if_false, ite_false]; exact hbm0_5
      have hbm1_6 : S1.bm 6 = true := by rw [hS1, extNextDirect_bm]; simp only [upd_eval, Int.reduceEq, if_false, ite_false]; exact hbm0_6
      have hb0_1 : S1.disk.blocks 0 = fsC.disk.blocks 0 := by rw [hS1, extNextDirect_disk_blocks]; simp only [Int.reduceEq, if_false, ite_false, inode_save_blocks, INODES_PER_BLOCK, htd1, Int.reduceAdd]; exact hb0_0
      have hdat2_1 : (S1.disk.blocks 2).data = memcpy S0.buf 0 data 0 4096 := by rw [hS1, extNextDirect_disk_blocks]; simp only [Int.reduceEq, if_true, ite_true]; rw [hwc0, hDBS]
      rw [extStepDirect 1 data 0]
      rotate_left 1
      · rw [hlen1] <;> omega
      · exact hbm1_3
      · rw [hfd1]; exact fun hcon => absurd hcon.1 (by decide)
      · rw [hop1]; decide
      · rw [hlen1, hDBS] <;> omega
      · rw [hfd1]; decide
      obtain ⟨S2, hS2⟩ : ∃ x, x = extNextDirect 1 data 3 DISK_BLOCK_SIZE S1 := ⟨_, rfl⟩
      rw [← hS2]
      have hlen2 : S2.length = L - 8192 := by rw [hS2, extNextDirect_length, hlen1, hDBS] <;> omega
      have hwc2 : S2.write_counter = 8192 := by rw [hS2, extNextDirect_write_counter, hwc1, hDBS] <;> omega
      have hisz2 : S2.ino.size = 8192 := by rw [hS2, extNextDirect_ino_size, hisz1, hDBS] <;> omega
      have hfd2 : S2.free_direct = 3 := by rw [hS2, extNextDirect_free_direct, hfd1] <;> omega
      have hhi2 : S2.has_indirect = false := by rw [hS2, extNextDirect_has_indirect]; exact hhi1
      have hop2 : S2.offset_ptr = 2 := by rw [hS2, extNextDirect_offset_ptr, hop1] <;> omega
      have hiiv2 : S2.ino.isvalid = 1 := by rw [hS2, extNextDirect_ino_isvalid]; exact hiiv1
      have hiind2 : S2.ino.indirect = 0 := by rw [hS2, extNextDirect_ino_indirect]; exact hiind1
      have hid0_2 : S2.ino.direct 0 = 2 := by rw [hS2, extNextDirect_ino_direct, hfd1]; simp only [upd_eval, POINTERS_PER_INODE, Int.reduceSub, htp1, Int.reduceEq, if_false, ite_false]; exact hid0_1
      have hid1_2 : S2.ino.direct 1 = 3 := by rw [hS2, extNextDirect_ino_direct, hfd1]; simp only [upd_eval, POINTERS_PER_INODE, Int.reduceSub, htp1, Int.reduceEq, if_true, ite_true]
      have hbm2_4 : S2.bm 4 = true := by rw [hS2, extNextDirect_bm]; simp only [upd_eval, Int.reduceEq, if_false, ite_false]; exact hbm1_4
      have hbm2_5 : S2.bm 5 = true := by rw [hS2, extNextDirect_bm]; simp only [upd_eval, Int.reduceEq, if_false, ite_false]; exact hbm1_5
      have hbm2_6 : S2.bm 6 = true := by rw [hS2, extNextDirect_bm]; simp only [upd_eval, Int.reduceEq, if_false, ite_false]; exact hbm1_6
      have hb0_2 : S2.disk.blocks 0 = fsC.disk.blocks 0 := by rw [hS2, extNextDirect_disk_blocks]; simp only [Int.reduceEq, if_false, ite_false, inode_save_blocks, INODES_PER_BLOCK, htd1, Int.reduceAdd]; exact hb0_1
      have hdat3_2 : (S2.disk.blocks 3).data = memcpy S1.buf 0 data 4096 4096 := by rw [hS2, extNextDirect_disk_blocks]; simp only [Int.reduceEq, if_true, ite_true]; rw [hwc1, hDBS]
      have hdat2_2 : (S2.disk.blocks 2).data = memcpy S0.buf 0 data 0 4096 := by rw [hS2, extNextDirect_disk_blocks]; simp only [Int.reduceEq, if_false, ite_false, inode_save_blocks, INODES_PER_BLOCK, htd1, Int.reduceAdd]; exact hdat2_1
      rw [extStepStop 1 data 0]
      rotate_left 1
      · rw [hlen2] <;> omega
      have hwcF : S2.write_counter = L := by rw [hwc2] <;> omega
      have hiszF : S2.ino.size = L := by rw [hisz2] <;> omega
      have hld : inode_load S2.disk 1 = S2.ino := by rw [hS2]; exact extNextDirect_load 1 data 3 DISK_BLOCK_SIZE S1 (by decide)
      rw [fs_read_post]
      rotate_left 1
      · simp only [is_valid_inumber, hld, hb0_2, hiiv2, hni2]
        decide
      · omega
      · rw [hld, hiszF] <;> omega
      rw [hld, hiszF, hiind2]
      simp only [ne_eq, Int.reduceEq, not_true, and_false, if_false, ite_false]
      rw [hIR5]
      rw [ptrWalkMark2]
      rotate_left 1
      · omega
      · rw [hid0_2]; decide
      rw [hid0_2]
      rw [ptrWalkMark2]
      rotate_left 1
      · simp only [hDBS] <;> omega
      · rw [hid1_2]; decide
      rw [hid1_2]
      rw [ptrWalkStop2]
      rotate_left 1
      · simp only [hDBS] <;> omega
      rw [hfst]
      rw [hb0_2, hnb2, hIR10, htdv0]
      obtain ⟨R0, hR0⟩ : ∃ x, x = ({ length := L, size := L, offset_ptr := 0, n_block := 0, read_counter := 0, out := data0 } : ReadSt) := ⟨_, rfl⟩
      rw [← hR0]
      have hRlen0 : R0.length = L := by rw [hR0]
      have hRsize0 : R0.size = L := by rw [hR0]
      have hRop0 : R0.offset_ptr = 0 := by rw [hR0]
      have hRnb0 : R0.n_block = 0 := by rw [hR0]
      have hRrc0 : R0.read_counter = 0 := by rw [hR0]
      have hRout0 : R0.out = data0 := by rw [hR0]
      rw [readStepSkip]
      rotate_left 1
      · rw [hRlen0, hRsize0] <;> omega
      · decide
      rw [readStepSkip]
      rotate_left 1
      · rw [hRlen0, hRsize0] <;> omega
      · decide
      rw [readStepChunk]
      rotate_left 1
      · rw [hRlen0, hRsize0] <;> omega
      · decide
      · rw [hRop0, hRnb0]
      · rw [hRop0]; decide
      · rw [hRsize0, hDBS] <;> omega
      · rw [hRop0, hRlen0]; simp only [hDBS, Int.reduceMul, Int.reduceNeg, Int.reduceSub, Int.zero_tmod, htm1, htm2, htm3, htm4, zero_add] <;> omega
      obtain ⟨R1, hR1⟩ : ∃ x, x = readNextChunk S2.disk 2 R0 := ⟨_, rfl⟩
      rw [← hR1]
      have hRlen1 : R1.length = L - 4096 := by rw [hR1, readNextChunk_length, hRlen0, hDBS] <;> omega
      have hRsize1 : R1.size = L - 4096 := by rw [hR1, readNextChunk_size, hRsize0, hDBS] <;> omega
      have hRop1 : R1.offset_ptr = 1 := by rw [hR1, readNextChunk_offset_ptr, hRop0] <;> omega
      have hRnb1 : R1.n_block = 1 := by rw [hR1, readNextChunk_n_block, hRnb0] <;> omega
      have hRrc1 : R1.read_counter = 4096 := by rw [hR1, readNextChunk_read_counter, hRrc0, hDBS] <;> omega
      have hRout1 : R1.out = memcpy R0.out 0 (memcpy S0.buf 0 data 0 4096) 0 DISK_BLOCK_SIZE := by rw [hR1, readNextChunk_out, hRrc0, hdat2_2]
      rw [readStepChunk]
      rotate_left 1
      · rw [hRlen1, hRsize1] <;> omega
      · decide
      · rw [hRop1, hRnb1]
      · rw [hRop1]; decide
      · rw [hRsize1, hDBS] <;> omega
      · rw [hRop1, hRlen1]; simp only [hDBS, Int.reduceMul, Int.reduceNeg, Int.reduceSub, Int.zero_tmod, htm1, htm2, htm3, htm4, zero_add] <;> omega
      obtain ⟨R2, hR2⟩ : ∃ x, x = readNextChunk S2.disk 3 R1 := ⟨_, rfl⟩
      rw [← hR2]
      have hRlen2 : R2.length = L - 8192 := by rw [hR2, readNextChunk_length, hRlen1, hDBS] <;> omega
      have hRsize2 : R2.size = L - 8192 := by rw [hR2, readNextChunk_size, hRsize1, hDBS] <;> omega
      have hRop2 : R2.offset_ptr = 2 := by rw [hR2, readNextChunk_offset_ptr, hRop1] <;> omega
      have hRnb2 : R2.n_block = 2 := by rw [hR2, readNextChunk_n_block, hRnb1] <;> omega
      have hRrc2 : R2.read_counter = 8192 := by rw [hR2, readNextChunk_read_counter, hRrc1, hDBS] <;> omega
      have hRout2 : R2.out = memcpy R1.out 4096 (memcpy S1.buf 0 data 4096 4096) 0 DISK_BLOCK_SIZE := by rw [hR2, readNextChunk_out, hRrc1, hdat3_2]
      rw [readStepStop]
      rotate_left 1
      · rw [hRlen2] <;> omega
      have hRrcF : R2.read_counter = L := by rw [hRrc2] <;> omega
      refine ⟨hwcF, hRrcF, ?_⟩
      intro i hi0 hiL
      simp only [hRout2, hRout1, hRout0, memcpy, hDBS]
      split_ifs <;> first | rfl | omega | (congr 1; omega) | (exfalso; omega)
    ·
      rw [extStepDirect 1 data 0]
      rotate_left 1
      · rw [hlen0] <;> omega
      · exact hbm0_2
      · rw [hfd0]; exact fun hcon => absurd hcon.1 (by decide)
      · rw [hop0]; decide
      · rw [hlen0, hDBS] <;> omega
      · rw [hfd0]; decide
      obtain ⟨S1, hS1⟩ : ∃ x, x = extNextDirect 1 data 2 DISK_BLOCK_SIZE S0 := ⟨_, rfl⟩
      rw [← hS1]
      have hlen1 : S1.length = L - 4096 := by rw [hS1, extNextDirect_length, hlen0, hDBS] <;> omega
      have hwc1 : S1.write_counter = 4096 := by rw [hS1, extNextDirect_write_counter, hwc0, hDBS] <;> omega
      have hisz1 : S1.ino.size = 4096 := by rw [hS1, extNextDirect_ino_size, hisz0, hDBS] <;> omega
      have hfd1 : S1.free_direct = 4 := by rw [hS1, extNextDirect_free_direct, hfd0] <;> omega
      have hhi1 : S1.has_indirect = false := by rw [hS1, extNextDirect_has_indirect]; exact hhi0
      have hop1 : S1.offset_ptr = 1 := by rw [hS1, extNextDirect_offset_ptr, hop0] <;> omega
      have hiiv1 : S1.ino.isvalid = 1 := by rw [hS1, extNextDirect_ino_isvalid]; exact hiiv0
      have hiind1 : S1.ino.indirect = 0 := by rw [hS1, extNextDirect_ino_indirect]; exact hiind0
      have hid0_1 : S1.ino.direct 0 = 2 := by rw [hS1, extNextDirect_ino_direct, hfd0]; simp only [upd_eval, POINTERS_PER_INODE, Int.reduceSub, htp0, Int.reduceEq, if_true, ite_true]
      have hid1_1 : S1.ino.direct 1 = 0 := by rw [hS1, extNextDirect_ino_direct, hfd0]; simp only [upd_eval, POINTERS_PER_INODE, Int.reduceSub, htp0, Int.reduceEq, if_false, ite_false]; exact hid1_0
      have hbm1_3 : S1.bm 3 = true := by rw [hS1, extNextDirect_bm]; simp only [upd_eval, Int.reduceEq, if_false, ite_false]; exact hbm0_3
      have hbm1_4 : S1.bm 4 = true := by rw [hS1, extNextDirect_bm]; simp only [upd_eval, Int.reduceEq, if_false, ite_false]; exact hbm0_4
      have hbm1_5 : S1.bm 5 = true := by rw [hS1, extNextDirect_bm]; simp only [upd_eval, Int.reduceEq, if_false, ite_false]; exact hbm0_5
      have hbm1_6 : S1.bm 6 = true := by rw [hS1, extNextDirect_bm]; simp only [upd_eval, Int.reduceEq, if_false, ite_false]; exact hbm0_6
      have hb0_1 : S1.disk.blocks 0 = fsC.disk.blocks 0 := by rw [hS1, extNextDirect_disk_blocks]; simp only [Int.reduceEq, if_false, ite_false, inode_save_blocks, INODES_PER_BLOCK, htd1, Int.reduceAdd]; exact hb0_0
      have hdat2_1 : (S1.disk.blocks 2).data = memcpy S0.buf 0 data 0 4096 := by rw [hS1, extNextDirect_disk_blocks]; simp only [Int.reduceEq, if_true, ite_true]; rw [hwc0, hDBS]
      rw [extStepDirectLast 1 data 0]
      rotate_left 1
      · rw [hlen1] <;> omega
      · exact hbm1_3
      · rw [hfd1]; exact fun hcon => absurd hcon.1 (by decide)
      · rw [hop1]; decide
      · rw [hlen1, hDBS] <;> omega
      · rw [hfd1]; decide
      obtain ⟨S2, hS2⟩ : ∃ x, x = extNextDirect 1 data 3 S1.length S1 := ⟨_, rfl⟩
      rw [← hS2]
      have hlen2 : S2.length = 0 := by rw [hS2, extNextDirect_length] <;> omega
      have hwc2 : S2.write_counter = L := by rw [hS2, extNextDirect_write_counter, hwc1, hlen1] <;> omega
      have hisz2 : S2.ino.size = L := by rw [hS2, extNextDirect_ino_size, hisz1, hlen1] <;> omega
      have hfd2 : S2.free_direct = 3 := by rw [hS2, extNextDirect_free_direct, hfd1] <;> omega
      have hhi2 : S2.has_indirect = false := by rw [hS2, extNextDirect_has_indirect]; exact hhi1
      have hop2 : S2.offset_ptr = 2 := by rw [hS2, extNextDirect_offset_ptr, hop1] <;> omega
      have hiiv2 : S2.ino.isvalid = 1 := by rw [hS2, extNextDirect_ino_isvalid]; exact hiiv1
      have hiind2 : S2.ino.indirect = 0 := by rw [hS2, extNextDirect_ino_indirect]; exact hiind1
      have hid0_2 : S2.ino.direct 0 = 2 := by rw [hS2, extNextDirect_ino_direct, hfd1]; simp only [upd_eval, POINTERS_PER_INODE, Int.reduceSub, htp1, Int.reduceEq, if_false, ite_false]; exact hid0_1
      have hid1_2 : S2.ino.direct 1 = 3 := by rw [hS2, extNextDirect_ino_direct, hfd1]; simp only [upd_eval, POINTERS_PER_INODE, Int.reduceSub, htp1, Int.reduceEq, if_true, ite_true]
      have hbm2_4 : S2.bm 4 = true := by rw [hS2, extNextDirect_bm]; simp only [upd_eval, Int.reduceEq, if_false, ite_false]; exact hbm1_4
      have hbm2_5 : S2.bm 5 = true := by rw [hS2, extNextDirect_bm]; simp only [upd_eval, Int.reduceEq, if_false, ite_false]; exact hbm1_5
      have hbm2_6 : S2.bm 6 = true := by rw [hS2, extNextDirect_bm]; simp only [upd_eval, Int.reduceEq, if_false, ite_false]; exact hbm1_6
      have hb0_2 : S2.disk.blocks 0 = fsC.disk.blocks 0 := by rw [hS2, extNextDirect_disk_blocks]; simp only [Int.reduceEq, if_false, ite_false, inode_save_blocks, INODES_PER_BLOCK, htd1, Int.reduceAdd]; exact hb0_1
      have hdat3_2 : (S2.disk.blocks 3).data = memcpy S1.buf 0 data 4096 (L - 4096) := by rw [hS2, extNextDirect_disk_blocks]; simp only [Int.reduceEq, if_true, ite_true]; rw [hwc1, hlen1]
      have hdat2_2 : (S2.disk.blocks 2).data = memcpy S0.buf 0 data 0 4096 := by rw [hS2, extNextDirect_disk_blocks]; simp only [Int.reduceEq, if_false, ite_false, inode_save_blocks, INODES_PER_BLOCK, htd1, Int.reduceAdd]; exact hdat2_1
      rw [extStepStop 1 data 0]
      rotate_left 1
      · rw [hlen2] <;> omega
      have hwcF : S2.write_counter = L := hwc2
      have hiszF : S2.ino.size = L := hisz2
      have hld : inode_load S2.disk 1 = S2.ino := by rw [hS2]; exact extNextDirect_load 1 data 3 S1.length S1 (by decide)
      rw [fs_read_post]
      rotate_left 1
      · simp only [is_valid_inumber, hld, hb0_2, hiiv2, hni2]
        decide
      · omega
      · rw [hld, hiszF] <;> omega
      rw [hld, hiszF, hiind2]
      simp only [ne_eq, Int.reduceEq, not_true, and_false, if_false, ite_false]
      rw [hIR5]
      rw [ptrWalkMark2]
      rotate_left 1
      · omega
      · rw [hid0_2]; decide
      rw [hid0_2]
      rw [ptrWalkMark2]
      rotate_left 1
      · simp only [hDBS] <;> omega
      · rw [hid1_2]; decide
      rw [hid1_2]
      rw [ptrWalkStop2]
      rotate_left 1
      · simp only [hDBS] <;> omega
      rw [hfst]
      rw [hb0_2, hnb2, hIR10, htdv0]
      obtain ⟨R0, hR0⟩ : ∃ x, x = ({ length := L, size := L, offset_ptr := 0, n_block := 0, read_counter := 0, out := data0 } : ReadSt) := ⟨_, rfl⟩
      rw [← hR0]
      have hRlen0 : R0.length = L := by rw [hR0]
      have hRsize0 : R0.size = L := by rw [hR0]
      have hRop0 : R0.offset_ptr = 0 := by rw [hR0]
      have hRnb0 : R0.n_block = 0 := by rw [hR0]
      have hRrc0 : R0.read_counter = 0 := by rw [hR0]
      have hRout0 : R0.out = data0 := by rw [hR0]
      rw [readStepSkip]
      rotate_left 1
      · rw [hRlen0, hRsize0] <;> omega
      · decide
      rw [readStepSkip]
      rotate_left 1
      · rw [hRlen0, hRsize0] <;> omega
      · decide
      rw [readStepChunk]
      rotate_left 1
      · rw [hRlen0, hRsize0] <;> omega
      · decide
      · rw [hRop0, hRnb0]
      · rw [hRop0]; decide
      · rw [hRsize0, hDBS] <;> omega
      · rw [hRop0, hRlen0]; simp only [hDBS, Int.reduceMul, Int.reduceNeg, Int.reduceSub, Int.zero_tmod, htm1, htm2, htm3, htm4, zero_add] <;> omega
      obtain ⟨R1, hR1⟩ : ∃ x, x = readNextChunk S2.disk 2 R0 := ⟨_, rfl⟩
      rw [← hR1]
      have hRlen1 : R1.length = L - 4096 := by rw [hR1, readNextChunk_length, hRlen0, hDBS] <;> omega
      have hRsize1 : R1.size = L - 4096 := by rw [hR1, readNextChunk_size, hRsize0, hDBS] <;> omega
      have hRop1 : R1.offset_ptr = 1 := by rw [hR1, readNextChunk_offset_ptr, hRop0] <;> omega
      have hRnb1 : R1.n_block = 1 := by rw [hR1, readNextChunk_n_block, hRnb0] <;> omega
      have hRrc1 : R1.read_counter = 4096 := by rw [hR1, readNextChunk_read_counter, hRrc0, hDBS] <;> omega
      have hRout1 : R1.out = memcpy R0.out 0 (memcpy S0.buf 0 data 0 4096) 0 DISK_BLOCK_SIZE := by rw [hR1, readNextChunk_out, hRrc0, hdat2_2]
      rw [readStepSmall]
      rotate_left 1
      · rw [hRlen1, hRsize1] <;> omega
      · decide
      · rw [hRop1, hRnb1]
      · rw [hRop1]; decide
      · rw [hRsize1, hDBS] <;> omega
      obtain ⟨R2, hR2⟩ : ∃ x, x = readNextSmall S2.disk 3 R1 := ⟨_, rfl⟩
      rw [← hR2]
      have hRrc2 : R2.read_counter = L := by rw [hR2, readNextSmall_read_counter, hRrc1, hRsize1] <;> omega
      have hRout2 : R2.out = memcpy R1.out 4096 (memcpy S1.buf 0 data 4096 (L - 4096)) 0 (L - 4096) := by rw [hR2, readNextSmall_out, hRrc1, hRsize1, hdat3_2]
      have hRrcF : R2.read_counter = L := hRrc2
      refine ⟨hwcF, hRrcF, ?_⟩
      intro i hi0 hiL
      simp only [hRout2, hRout1, hRout0, memcpy, hDBS]
      split_ifs <;> first | rfl | omega | (congr 1; omega) | (exfalso; omega)

/-- Witness for c1_round_trip_offset_zero at L = 5000 with concrete buffers. -/
theorem c1_round_trip_offset_zero_witness :
    ((0 : Int) < 5000 ∧ (5000 : Int) ≤ 2 * DISK_BLOCK_SIZE) ∧
    ((fs_write fsC 1 dataA 5000 0 zeros izeros).1 = 5000 ∧
     (fs_read (fs_write fsC 1 dataA 5000 0 zeros izeros).2 1 zeros 5000 0).1 = 5000 ∧
     (∀ i, 0 ≤ i → i < 5000 →
       (fs_read (fs_write fsC 1 dataA 5000 0 zeros izeros).2 1 zeros 5000 0).2 i = dataA i)) :=
  ⟨⟨by decide, by decide⟩,
   c1_round_trip_offset_zero 5000 dataA zeros izeros zeros (by decide) (by decide)⟩

end FsSim
